import Mathlib

/-!
# Recording decorator (`src/record_device.cpp`)

A shallow embedding of the recording device, the recording sensor and the mock
frame of `record_device.cpp`, followed by the properties of the specification
that are settled against it.

Conventions of the embedding

* A C++ object is a structure holding its members, under the members' names; a
  member function takes the object first and returns the updated object.
* `uint64_t` values are naturals and every `uint64_t` operation of the source
  is reduced modulo `2 ^ 64`.
* Collaborators that the file only calls through an interface (the wrapped
  device, the wrapped sensors, the serializer's writer) are call-recording
  doubles: their state is the list of calls they received.
* The dispatcher is its FIFO queue of pending jobs; a job is the closure created
  at line 101, kept as the tuple of the values it captured.
* Two schedulers are given.  `record_device.run` runs whole hook calls and whole
  jobs one after the other; it is used for what only the dispatcher thread
  touches (the writer, the first-event flag) and for the base, which
  `std::call_once` guards.  `threads.run` lets producer threads overlap: a call
  of `write_data` is split at the only place where it touches shared data that
  a job also writes, the read of `m_cached_data_size` at line 91 and its write
  at line 98, between which the file takes no lock.
-/

namespace rsimpl2

/-! ## Values shared by the whole file -/

/-- Number of values of a `uint64_t`. -/
def UINT64_RANGE : Nat := 2 ^ 64

/-- The exceptions that the file throws or catches.  `std_exception` stands for
an exception derived from `std::exception` thrown inside a collaborator. -/
inductive exception where
  | invalid_argument (what : String)
  | invalid_value_exception (what : String)
  | not_implemented_exception (what : String)
  | std_exception
  deriving DecidableEq, Repr

/-- Modelled from the spec: the enumeration `rs2_timestamp_domain`, declared in
`rs2.h` (not in src/).  The source names only the system-time enumerator. -/
inductive rs2_timestamp_domain where
  | RS2_TIMESTAMP_DOMAIN_HARDWARE_CLOCK
  | RS2_TIMESTAMP_DOMAIN_SYSTEM_TIME
  deriving DecidableEq, Repr

/-- Modelled from the spec: the enumeration `rs2_extension_type`, declared in
`rs2.h` (not in src/).  The enumerators are the ones the source names (the
capability kinds of the glossary, `UNKNOWN` and `COUNT`); `unnamed v` is any
other value the underlying integer type can hold. -/
inductive rs2_extension_type where
  | RS2_EXTENSION_TYPE_UNKNOWN
  | RS2_EXTENSION_TYPE_DEBUG
  | RS2_EXTENSION_TYPE_INFO
  | RS2_EXTENSION_TYPE_MOTION
  | RS2_EXTENSION_TYPE_OPTIONS
  | RS2_EXTENSION_TYPE_VIDEO
  | RS2_EXTENSION_TYPE_ROI
  | RS2_EXTENSION_TYPE_COUNT
  | unnamed (v : Int)
  deriving DecidableEq, Repr

/-- Modelled from the spec: the raw frame struct behind `frame*` (the
CapturedFrame of the data model), declared outside src/.  The source reads only
`data`; a timestamp is a `double` in the source and is kept as an integer here,
since the file only ever produces the constant `0`. -/
structure frame where
  data : List Nat
  timestamp : Int
  timestamp_domain : rs2_timestamp_domain
  stream_index : Nat
  deriving DecidableEq, Repr

/-! ## The wrapped sensor and the recording sensor -/

/-- Identity of a live frame callback object (`frame_callback_ptr`). -/
abbrev frame_callback_ptr := Nat

/-- The intercept `my_frame_callback` of lines 245-257, holding the closure
`record_cb` of line 266; the closure captures `this` and the live `callback`,
and `this` is the recording sensor that holds the intercept. -/
structure my_frame_callback where
  callback : frame_callback_ptr
  deriving DecidableEq, Repr

/-- Calls received by a wrapped sensor. -/
inductive sensor_call where
  | start (callback : my_frame_callback)
  | stop
  deriving DecidableEq, Repr

/-- Modelled from the spec: the wrapped sensor (`sensor_interface`), an external
collaborator of section 6, as a double: `debug_api` tells whether
`dynamic_cast<debug_interface*>` succeeds, `info_api` whether
`dynamic_cast<info_interface*>` succeeds, `calls` is the log of `start` and
`stop` calls and `streaming` the callback frames are delivered to. -/
structure sensor_interface where
  id : Nat
  debug_api : Bool
  info_api : Bool
  calls : List sensor_call
  streaming : Option my_frame_callback
  deriving DecidableEq, Repr

/-- Wrapped sensor double: `start` logs the call and registers the callback. -/
def sensor_interface.start (s : sensor_interface) (callback : my_frame_callback) :
    sensor_interface :=
  { s with calls := s.calls ++ [sensor_call.start callback], streaming := some callback }

/-- Wrapped sensor double: `stop` logs the call and ends delivery. -/
def sensor_interface.stop (s : sensor_interface) : sensor_interface :=
  { s with calls := s.calls ++ [sensor_call.stop], streaming := none }

/-- The capture hook handed to a recording sensor: the lambda of lines 34-43,
which captures `this` (the recording device) and the sensor index `i`. -/
structure frame_interface_callback_t where
  i : Nat
  deriving DecidableEq, Repr

/-- Members of `record_sensor` (constructor: lines 198-206). -/
structure record_sensor where
  m_sensor : sensor_interface
  m_record_callback : frame_interface_callback_t
  m_frame_callback : Option my_frame_callback
  m_is_pause : Bool
  m_is_recording : Bool
  deriving DecidableEq, Repr

/-- Constructor of `record_sensor`, lines 198-206. -/
def record_sensor.ctor (sensor : sensor_interface) (on_frame : frame_interface_callback_t) :
    record_sensor :=
  { m_sensor := sensor
    m_record_callback := on_frame
    m_frame_callback := none
    m_is_pause := false
    m_is_recording := false }

/-- Lines 258-274 `record_sensor::start`. -/
def record_sensor.start (self : record_sensor) (callback : frame_callback_ptr) :
    record_sensor :=
  if self.m_frame_callback.isSome then
    self
  else
    let record_cb : my_frame_callback := { callback := callback }
    { self with
      m_frame_callback := some record_cb
      m_sensor := self.m_sensor.start record_cb }

/-- Lines 275-279 `record_sensor::stop`. -/
def record_sensor.stop (self : record_sensor) : record_sensor :=
  { self with m_sensor := self.m_sensor.stop, m_frame_callback := none }

/-! ## Mock frame (lines 321-350) -/

/-- Members of `mock_frame` (constructor: lines 345-350). -/
structure mock_frame where
  m_sensor : sensor_interface
  m_frame : frame
  deriving DecidableEq, Repr

/-- Lines 321-324. -/
def mock_frame.get_timestamp (_self : mock_frame) : Int := 0

/-- Lines 325-328. -/
def mock_frame.get_timestamp_domain (_self : mock_frame) : rs2_timestamp_domain :=
  rs2_timestamp_domain.RS2_TIMESTAMP_DOMAIN_SYSTEM_TIME

/-- Lines 329-332. -/
def mock_frame.get_stream_index (_self : mock_frame) : Nat := 0

/-- Lines 333-336. -/
def mock_frame.get_data (self : mock_frame) : List Nat := self.m_frame.data

/-- Lines 337-340. -/
def mock_frame.get_data_size (self : mock_frame) : Nat := self.m_frame.data.length

/-- Lines 341-344. -/
def mock_frame.get_sensor (self : mock_frame) : sensor_interface := self.m_sensor

/-- What a `frame_interface` object answers to its six getters.  The capture
hook receives frames through this interface only. -/
structure frame_interface where
  get_timestamp : Int
  get_timestamp_domain : rs2_timestamp_domain
  get_stream_index : Nat
  get_data : List Nat
  get_data_size : Nat
  get_sensor : sensor_interface
  deriving DecidableEq, Repr

/-- A mock frame seen through `frame_interface` (the `make_shared<mock_frame>`
of line 268 passed as `shared_ptr<frame_interface>`). -/
def mock_frame.as_frame_interface (self : mock_frame) : frame_interface :=
  { get_timestamp := self.get_timestamp
    get_timestamp_domain := self.get_timestamp_domain
    get_stream_index := self.get_stream_index
    get_data := self.get_data
    get_data_size := self.get_data_size
    get_sensor := self.get_sensor }

/-- What one delivery of a frame by the wrapped sensor causes, in order. -/
inductive callback_event where
  | record (hook : frame_interface_callback_t) (f : frame_interface)
  | live (callback : frame_callback_ptr) (f : frame)
  deriving DecidableEq, Repr

/-- The closure `record_cb` of lines 266-270, run for the recording sensor
`self` that owns the intercept `cb` on the raw frame `f`. -/
def record_sensor.record_cb (self : record_sensor) (cb : my_frame_callback) (f : frame) :
    List callback_event :=
  [ callback_event.record self.m_record_callback
      (mock_frame.as_frame_interface { m_sensor := self.m_sensor, m_frame := f }),
    callback_event.live cb.callback f ]

/-- The wrapped sensor delivers the raw frame `f`: it calls `on_frame` of the
callback registered by `start` (lines 251-254), if any. -/
def record_sensor.deliver (self : record_sensor) (f : frame) : List callback_event :=
  match self.m_sensor.streaming with
  | none => []
  | some cb => self.record_cb cb f

/-! ## `record_sensor::extend_to` (lines 284-319) -/

/-- How a call of `record_sensor::extend_to` ends: with a `return` statement,
with an exception, or by leaving the `switch` through `break` and reaching the
closing brace of the function, where the source has no `return` statement. -/
inductive extend_to_outcome where
  | returned_debug_api
  | threw (e : exception)
  | end_of_function_without_return
  deriving DecidableEq, Repr

/-- Lines 284-319 `record_sensor::extend_to`.  `create_recordable` of the
debug capability (an external collaborator) is taken to return normally. -/
def record_sensor.extend_to (self : record_sensor) (extension_type : rs2_extension_type) :
    extend_to_outcome :=
  match extension_type with
  | rs2_extension_type.RS2_EXTENSION_TYPE_DEBUG =>
    if self.m_sensor.debug_api then
      extend_to_outcome.returned_debug_api
    else
      extend_to_outcome.threw (exception.invalid_value_exception "Sensor is not of type debug_interface")
  | rs2_extension_type.RS2_EXTENSION_TYPE_INFO => extend_to_outcome.end_of_function_without_return
  | rs2_extension_type.RS2_EXTENSION_TYPE_MOTION => extend_to_outcome.end_of_function_without_return
  | rs2_extension_type.RS2_EXTENSION_TYPE_OPTIONS => extend_to_outcome.end_of_function_without_return
  | rs2_extension_type.RS2_EXTENSION_TYPE_VIDEO => extend_to_outcome.end_of_function_without_return
  | rs2_extension_type.RS2_EXTENSION_TYPE_ROI => extend_to_outcome.end_of_function_without_return
  | _ => extend_to_outcome.threw (exception.invalid_value_exception "extension_type is not supported")

/-! ## The wrapped device and the serializer's writer -/

/-- Modelled from the spec: the wrapped device (`device_interface`), an external
collaborator of section 6, as a double: its sensors in index order, and whether
`dynamic_cast<info_interface*>` succeeds on it. -/
structure device_interface where
  info_api : Bool
  sensors : List sensor_interface
  deriving DecidableEq, Repr

/-- Device double: `get_sensors_count`. -/
def device_interface.get_sensors_count (d : device_interface) : Nat := d.sensors.length

/-- An extension snapshot; the file creates info snapshots only (line 164). -/
inductive extension_snapshot where
  | info_snapshot
  deriving DecidableEq, Repr

/-- The element type of `sensors_md` (line 71). -/
structure sensor_metadata where
  snapshots : List extension_snapshot
  deriving DecidableEq, Repr

/-- The argument of `write_device_description` (line 79). -/
structure device_snapshot where
  device_extensions_md : List extension_snapshot
  sensors_md : List sensor_metadata
  deriving DecidableEq, Repr

/-- The argument of `writer::write` (line 113): capture time, sensor index and
frame. -/
structure storage_data where
  capture_time : Int
  sensor_index : Nat
  f : frame_interface
  deriving DecidableEq, Repr

/-- Calls received by the writer. -/
inductive writer_call where
  | reset
  | write_device_description (device_description : device_snapshot)
  | write (data : storage_data)
  deriving DecidableEq, Repr

/-- Modelled from the spec: the serializer's writer (section 4.5), an external
collaborator, as a double.  `calls` logs every call in the order it was made,
including a call that ends by throwing; `throwing` lists the positions in that
order (from 0) of the calls that throw an exception derived from
`std::exception`. -/
structure writer where
  calls : List writer_call
  throwing : List Nat
  deriving DecidableEq, Repr

/-- Writer double: receive the call `c`; the boolean tells whether it threw. -/
def writer.call (w : writer) (c : writer_call) : writer × Bool :=
  ({ w with calls := w.calls ++ [c] }, decide (w.calls.length ∈ w.throwing))

/-- The values `i` of the loop of line 155, from 0 up to
`RS2_EXTENSION_TYPE_COUNT`, as enumerators. -/
def rs2_extension_type.below_count : List rs2_extension_type :=
  [ rs2_extension_type.RS2_EXTENSION_TYPE_UNKNOWN,
    rs2_extension_type.RS2_EXTENSION_TYPE_DEBUG,
    rs2_extension_type.RS2_EXTENSION_TYPE_INFO,
    rs2_extension_type.RS2_EXTENSION_TYPE_MOTION,
    rs2_extension_type.RS2_EXTENSION_TYPE_OPTIONS,
    rs2_extension_type.RS2_EXTENSION_TYPE_VIDEO,
    rs2_extension_type.RS2_EXTENSION_TYPE_ROI ]

/-- Lines 151-188 `record_device::get_extensions_snapshots`, for an object on
which `dynamic_cast<info_interface*>` succeeds exactly when `info_api`. -/
def get_extensions_snapshots (info_api : Bool) : List extension_snapshot :=
  rs2_extension_type.below_count.foldl
    (fun sensor_extensions_md ext =>
      if ext = rs2_extension_type.RS2_EXTENSION_TYPE_UNKNOWN then sensor_extensions_md
      else if ext = rs2_extension_type.RS2_EXTENSION_TYPE_INFO then
        (if info_api then sensor_extensions_md ++ [extension_snapshot.info_snapshot]
         else sensor_extensions_md)
      else if ext = rs2_extension_type.RS2_EXTENSION_TYPE_OPTIONS then sensor_extensions_md
      else sensor_extensions_md)
    []

/-! ## The recording device -/

/-- The closure enqueued at line 101, as the values it captures (`this` is the
recording device that runs it). -/
structure job where
  sensor_index : Nat
  capture_time : Int
  f : frame_interface
  data_size : Nat
  deriving DecidableEq, Repr

/-- Members of `record_device`.  `m_write_thread` is the dispatcher, kept as its
FIFO queue of pending jobs; `m_first_call_flag` is the `std::once_flag` (true
once `call_once` has run its function); times are nanosecond counts; `log` is
the output of `LOG_ERROR`. -/
structure record_device where
  m_write_thread : List job
  m_is_first_event : Bool
  m_is_recording : Bool
  m_record_pause_time : Int
  m_device : device_interface
  m_writer : writer
  m_sensors : List record_sensor
  m_first_call_flag : Bool
  m_capture_time_base : Int
  m_cached_data_size : Nat
  log : List String
  deriving DecidableEq, Repr

/-- The loop of lines 29-45 from index `i` on: `sensors` are the wrapped
sensors `get_sensor(i)`, `get_sensor(i+1)`, ... still to visit; each gets a
recording sensor whose hook captures its index. -/
def record_device.wrap_sensors : List sensor_interface → Nat → List record_sensor
  | [], _ => []
  | sensor :: rest, i =>
    record_sensor.ctor sensor { i := i } :: record_device.wrap_sensors rest (i + 1)

/-- How the constructor of `record_device` ends. -/
inductive ctor_outcome where
  | threw (e : exception)
  | constructed (self : record_device)
  deriving DecidableEq, Repr

/-- What a call of the constructor leaves behind: how it ended, the caller's
writer after the call, and the recording sensors that were created. -/
structure construction where
  outcome : ctor_outcome
  serializer : Option writer
  sensors_created : List record_sensor
  deriving DecidableEq, Repr

/-- Modelled from the spec: the content of `m_cached_data_size` when the
constructor returns.  The member is declared in `record_device.h` (not in src/)
and the constructor does not mention it; the budget is the running total of
admitted bytes, none at that point.  The one-shot guard of the hook stores 0 in
it before the first read (line 39), so no step depends on this value. -/
def record_device.initial_cached_data_size : Nat := 0

/-- Lines 8-46, the constructor of `record_device`.  A null `shared_ptr` is
`none`. -/
def record_device.ctor (device : Option device_interface) (serializer : Option writer) :
    construction :=
  match device, serializer with
  | none, _ =>
    { outcome := ctor_outcome.threw (exception.invalid_argument "device")
      serializer := serializer
      sensors_created := [] }
  | some _, none =>
    { outcome := ctor_outcome.threw (exception.invalid_argument "serializer")
      serializer := none
      sensors_created := [] }
  | some d, some w =>
    let after_reset := w.call writer_call.reset
    if after_reset.2 then
      { outcome := ctor_outcome.threw exception.std_exception
        serializer := some after_reset.1
        sensors_created := [] }
    else
      let sensors := record_device.wrap_sensors d.sensors 0
      { outcome := ctor_outcome.constructed
          { m_write_thread := []
            m_is_first_event := true
            m_is_recording := true
            m_record_pause_time := 0
            m_device := d
            m_writer := after_reset.1
            m_sensors := sensors
            m_first_call_flag := false
            m_capture_time_base := 0
            m_cached_data_size := record_device.initial_cached_data_size
            log := [] }
        serializer := some after_reset.1
        sensors_created := sensors }

/-- Lines 56-59 `record_device::get_sensors_count`. -/
def record_device.get_sensors_count (self : record_device) : Nat := self.m_sensors.length

/-- The snapshot gathered by lines 69-77 of `write_header`. -/
def record_device.header_snapshot (self : record_device) : device_snapshot :=
  { device_extensions_md := get_extensions_snapshots self.m_device.info_api
    sensors_md := self.m_device.sensors.map
      (fun sensor => { snapshots := get_extensions_snapshots sensor.info_api }) }

/-- Lines 67-80 `record_device::write_header`: the writer after the call of
line 79, and whether that call threw. -/
def record_device.write_header (self : record_device) : writer × Bool :=
  self.m_writer.call (writer_call.write_device_description self.header_snapshot)

/-- Lines 82-86 `record_device::get_capture_time`, with the clock reading
`now`. -/
def record_device.get_capture_time (self : record_device) (now : Int) : Int :=
  (now - self.m_capture_time_base) - self.m_record_pause_time

/-- Lines 88-126 `record_device::write_data`, up to and including the `invoke`
that enqueues the job.  `MAX_CACHED_DATA_SIZE` is declared in `record_device.h`
(not in src/) and is a parameter; `now` is the clock reading of
`get_capture_time`. -/
def record_device.write_data (MAX_CACHED_DATA_SIZE : Nat) (self : record_device)
    (sensor_index : Nat) (f : frame_interface) (now : Int) : record_device :=
  let data_size := f.get_data_size % UINT64_RANGE
  let cached_data_size := (self.m_cached_data_size + data_size) % UINT64_RANGE
  if cached_data_size > MAX_CACHED_DATA_SIZE then
    { self with log := self.log ++ ["frame drop occurred"] }
  else
    let self1 := { self with m_cached_data_size := cached_data_size }
    let capture_time := self1.get_capture_time now
    { self1 with
      m_write_thread := self1.m_write_thread ++
        [{ sensor_index := sensor_index, capture_time := capture_time, f := f,
           data_size := data_size }] }

/-- The `std::call_once` of lines 36-40: the first call runs the function, which
reads the clock (`once_now`) and zeroes the budget; later calls do nothing. -/
def record_device.call_once (self : record_device) (once_now : Int) : record_device :=
  if self.m_first_call_flag then self
  else
    { self with
      m_capture_time_base := once_now
      m_cached_data_size := 0
      m_first_call_flag := true }

/-- The capture hook, the lambda of lines 34-43: the `call_once` of lines
36-40, then `write_data(i, f)`. -/
def record_device.capture_hook (MAX_CACHED_DATA_SIZE : Nat) (self : record_device)
    (i : Nat) (f : frame_interface) (once_now now : Int) : record_device :=
  record_device.write_data MAX_CACHED_DATA_SIZE (self.call_once once_now) i f now

/-- The `try` block of lines 110-118 with its `catch`: `write_header()`, then
`m_writer->write(...)` unless the header call threw; an exception is logged. -/
def record_device.first_event_writes (self : record_device) (j : job) : record_device :=
  let after_header := self.write_header
  if after_header.2 then
    { self with m_writer := after_header.1, log := self.log ++ ["Error read thread"] }
  else
    let after_write := after_header.1.call
      (writer_call.write { capture_time := j.capture_time, sensor_index := j.sensor_index, f := j.f })
    if after_write.2 then
      { self with m_writer := after_write.1, log := self.log ++ ["Error read thread"] }
    else
      { self with m_writer := after_write.1 }

/-- Lines 102-125, the body of the job enqueued by `write_data`. -/
def record_device.job_body (self : record_device) (j : job) : record_device :=
  if self.m_is_recording == false then
    self
  else
    let self1 :=
      if self.m_is_first_event then
        { self.first_event_writes j with m_is_first_event := false }
      else self
    { self1 with
      m_cached_data_size :=
        (self1.m_cached_data_size + (UINT64_RANGE - j.data_size % UINT64_RANGE)) % UINT64_RANGE }

/-- Modelled from the spec: the dispatcher (section 4.4; the class is declared
outside src/) runs the jobs one at a time in submission order.  This is the
execution of the oldest pending job; with no pending job nothing happens. -/
def record_device.run_next_job (self : record_device) : record_device :=
  match self.m_write_thread with
  | [] => self
  | j :: rest => record_device.job_body { self with m_write_thread := rest } j

/-- One atomic step of a run: a call of the capture hook of sensor `i` with
frame `f` and the two clock readings, or the execution of the next job. -/
inductive step where
  | capture (i : Nat) (f : frame_interface) (once_now now : Int)
  | job
  deriving DecidableEq, Repr

/-- Effect of one step of a schedule in which every hook call runs to its end
before the next step starts. -/
def record_device.perform (MAX_CACHED_DATA_SIZE : Nat) (self : record_device) : step → record_device
  | step.capture i f once_now now =>
    record_device.capture_hook MAX_CACHED_DATA_SIZE self i f once_now now
  | step.job => self.run_next_job

/-- Effect of a list of steps, in order, none overlapping another. -/
def record_device.run (MAX_CACHED_DATA_SIZE : Nat) : record_device → List step → record_device
  | self, [] => self
  | self, a :: rest =>
    record_device.run MAX_CACHED_DATA_SIZE (record_device.perform MAX_CACHED_DATA_SIZE self a) rest

/-- Number of jobs executed along a run: the `job` steps taken with a pending
job. -/
def record_device.jobs_executed (MAX_CACHED_DATA_SIZE : Nat) :
    record_device → List step → Nat
  | _, [] => 0
  | self, a :: rest =>
    (if a = step.job ∧ self.m_write_thread ≠ [] then 1 else 0) +
      record_device.jobs_executed MAX_CACHED_DATA_SIZE
        (record_device.perform MAX_CACHED_DATA_SIZE self a) rest

/-! ## Overlapping producer threads -/

/-- The locals of a call of `write_data` that has passed the test of line 92
and has not yet executed line 98. -/
structure write_data_locals where
  sensor_index : Nat
  f : frame_interface
  data_size : Nat
  cached_data_size : Nat
  deriving DecidableEq, Repr

/-- Lines 90-96 of `write_data`: read the budget, add the frame size, test the
sum against the bound.  `none` when the frame is dropped. -/
def record_device.write_data_test (MAX_CACHED_DATA_SIZE : Nat) (self : record_device)
    (sensor_index : Nat) (f : frame_interface) : record_device × Option write_data_locals :=
  let data_size := f.get_data_size % UINT64_RANGE
  let cached_data_size := (self.m_cached_data_size + data_size) % UINT64_RANGE
  if cached_data_size > MAX_CACHED_DATA_SIZE then
    ({ self with log := self.log ++ ["frame drop occurred"] }, none)
  else
    (self, some { sensor_index := sensor_index, f := f, data_size := data_size,
                  cached_data_size := cached_data_size })

/-- Lines 98-101 of `write_data`: store the sum computed at line 91, read the
capture time, enqueue the job. -/
def record_device.write_data_store (self : record_device) (locals : write_data_locals)
    (now : Int) : record_device :=
  let self1 := { self with m_cached_data_size := locals.cached_data_size }
  let capture_time := self1.get_capture_time now
  { self1 with
    m_write_thread := self1.m_write_thread ++
      [{ sensor_index := locals.sensor_index, capture_time := capture_time, f := locals.f,
         data_size := locals.data_size }] }

/-- The recorder shared by the threads, and for each producer thread inside
`write_data` between line 96 and line 98 the locals of its call. -/
structure threads where
  shared : record_device
  in_write_data : List (Nat × write_data_locals)
  deriving DecidableEq, Repr

/-- One step of a thread: a producer thread enters the hook of sensor `i` with
frame `f` and runs it up to line 96 (`call_once`, then the test); a producer
thread inside `write_data` runs lines 98-101; or the dispatcher thread executes
the next job. -/
inductive thread_step where
  | enter (thread : Nat) (i : Nat) (f : frame_interface) (once_now : Int)
  | store (thread : Nat) (now : Int)
  | job
  deriving DecidableEq, Repr

/-- Effect of one thread step.  A thread already inside `write_data` cannot
enter again, and `store` on a thread that is not inside does nothing. -/
def threads.perform (MAX_CACHED_DATA_SIZE : Nat) (t : threads) : thread_step → threads
  | thread_step.enter thread i f once_now =>
    if (t.in_write_data.lookup thread).isSome then t
    else
      match record_device.write_data_test MAX_CACHED_DATA_SIZE
          (t.shared.call_once once_now) i f with
      | (shared, none) => { t with shared := shared }
      | (shared, some locals) =>
        { shared := shared, in_write_data := t.in_write_data ++ [(thread, locals)] }
  | thread_step.store thread now =>
    match t.in_write_data.lookup thread with
    | none => t
    | some locals =>
      { shared := t.shared.write_data_store locals now
        in_write_data := t.in_write_data.filter (fun entry => entry.1 != thread) }
  | thread_step.job => { t with shared := t.shared.run_next_job }

/-- Effect of a schedule of thread steps, in order. -/
def threads.run (MAX_CACHED_DATA_SIZE : Nat) : threads → List thread_step → threads
  | t, [] => t
  | t, a :: rest => threads.run MAX_CACHED_DATA_SIZE (threads.perform MAX_CACHED_DATA_SIZE t a) rest

/-! ## Vocabulary of the statements -/

/-- Is this writer call a `write_device_description`? -/
def writer_call.is_write_device_description : writer_call → Bool
  | writer_call.write_device_description _ => true
  | _ => false

/-- The records of the `write(record)` calls of a call log, in order. -/
def writer_call.records : List writer_call → List storage_data
  | [] => []
  | writer_call.write data :: rest => data :: writer_call.records rest
  | _ :: rest => writer_call.records rest

/-- Sum of the sizes of the frames whose jobs are pending. -/
def record_device.pending_bytes (self : record_device) : Nat :=
  (self.m_write_thread.map (fun j => j.f.get_data_size)).sum

/-- A capture step whose frame size, added to the bound, fits in 64 bits. -/
def step.fits (MAX_CACHED_DATA_SIZE : Nat) : step → Prop
  | step.capture _ f _ _ => f.get_data_size + MAX_CACHED_DATA_SIZE < UINT64_RANGE
  | step.job => True

/-- The read-only surface of a mock frame equals that of the raw frame it
wraps and the sensor it was built with. -/
def mock_frame.same_surface (sensor : sensor_interface) (f : frame) : Prop :=
  let m : mock_frame := { m_sensor := sensor, m_frame := f }
  m.get_data = f.data ∧ m.get_data_size = f.data.length ∧ m.get_sensor = sensor ∧
    m.get_timestamp = f.timestamp ∧ m.get_timestamp_domain = f.timestamp_domain ∧
    m.get_stream_index = f.stream_index

/-! ## Inputs of the concrete scenarios -/

/-- A wrapped sensor that has received no call. -/
def scenario_sensor (id : Nat) : sensor_interface :=
  { id := id, debug_api := false, info_api := true, calls := [], streaming := none }

/-- A device with two sensors. -/
def scenario_device : device_interface :=
  { info_api := true, sensors := [scenario_sensor 0, scenario_sensor 1] }

/-- A writer that has received no call and never throws. -/
def scenario_writer : writer := { calls := [], throwing := [] }

/-- A raw frame of `n` bytes. -/
def scenario_raw_frame (n : Nat) : frame :=
  { data := List.replicate n 0
    timestamp := 5
    timestamp_domain := rs2_timestamp_domain.RS2_TIMESTAMP_DOMAIN_HARDWARE_CLOCK
    stream_index := 1 }

/-- The mock frame over a raw frame of `n` bytes of sensor `id`, as the capture
hook receives it. -/
def scenario_frame (id n : Nat) : frame_interface :=
  mock_frame.as_frame_interface
    { m_sensor := scenario_sensor id, m_frame := scenario_raw_frame n }

/-- A frame object whose `get_data_size` answers `2 ^ 64 - 5`. -/
def scenario_oversized_frame : frame_interface :=
  { scenario_frame 0 0 with get_data_size := UINT64_RANGE - 5 }

/-- The header written for the scenario device. -/
def scenario_header : device_snapshot :=
  { device_extensions_md := [extension_snapshot.info_snapshot]
    sensors_md := [{ snapshots := [extension_snapshot.info_snapshot] },
                   { snapshots := [extension_snapshot.info_snapshot] }] }

/-- The members of the scenario recorder when its constructor returns. -/
def scenario_state : record_device :=
  { m_write_thread := []
    m_is_first_event := true
    m_is_recording := true
    m_record_pause_time := 0
    m_device := scenario_device
    m_writer := { calls := [writer_call.reset], throwing := [] }
    m_sensors := [record_sensor.ctor (scenario_sensor 0) { i := 0 },
                  record_sensor.ctor (scenario_sensor 1) { i := 1 }]
    m_first_call_flag := false
    m_capture_time_base := 0
    m_cached_data_size := 0
    log := [] }

/-- A hook call that enqueues nothing leaves the one-shot guard and the
capture-time base as they were. -/
def record_device.drop_keeps_base (MAX_CACHED_DATA_SIZE : Nat) (self : record_device)
    (i : Nat) (f : frame_interface) (once_now now : Int) : Prop :=
  (record_device.capture_hook MAX_CACHED_DATA_SIZE self i f once_now now).m_write_thread =
      self.m_write_thread →
    (record_device.capture_hook MAX_CACHED_DATA_SIZE self i f once_now now).m_first_call_flag =
        self.m_first_call_flag ∧
      (record_device.capture_hook MAX_CACHED_DATA_SIZE self i f once_now now).m_capture_time_base =
        self.m_capture_time_base

/-- Shape of the recorder while recording stays enabled, relative to the
writer's log `base` at the end of construction: before the first executed job
the log is `base`; afterwards it is `base` followed by one header call and at
most one record. -/
def record_device.header_state (base : List writer_call) (self : record_device) : Prop :=
  self.m_is_recording = true ∧
    ((self.m_is_first_event = true ∧ self.m_writer.calls = base) ∨
     (self.m_is_first_event = false ∧
      ∃ d, self.m_writer.calls = base ++ [writer_call.write_device_description d] ∨
        ∃ r, self.m_writer.calls =
          base ++ [writer_call.write_device_description d, writer_call.write r]))

/-- Shape of the budget along a run whose frames fit: recording is enabled, the
budget is within the bound and equals the pending bytes, every pending job
stores the exact size of its frame, and nothing is pending before the one-shot
guard of the hook has fired. -/
def record_device.budget_state (MAX_CACHED_DATA_SIZE : Nat) (self : record_device) : Prop :=
  self.m_is_recording = true ∧
  self.m_cached_data_size ≤ MAX_CACHED_DATA_SIZE ∧
  self.m_cached_data_size = self.pending_bytes ∧
  (∀ j ∈ self.m_write_thread,
    j.data_size = j.f.get_data_size ∧ j.f.get_data_size + MAX_CACHED_DATA_SIZE < UINT64_RANGE) ∧
  (self.m_first_call_flag = false → self.m_write_thread = [])

/-- The admission rule of `write_data` read with exact sums: a job is enqueued
exactly when budget plus frame size is within the bound; beyond the bound the
budget, the queue and the writer are unchanged; within it one job with the
sensor index, the frame and its size is appended and the budget becomes the
sum. -/
def record_device.admission_rule (MAX_CACHED_DATA_SIZE : Nat) (self : record_device)
    (i : Nat) (f : frame_interface) (now : Int) : Prop :=
  ((record_device.write_data MAX_CACHED_DATA_SIZE self i f now).m_write_thread ≠
      self.m_write_thread ↔
    self.m_cached_data_size + f.get_data_size ≤ MAX_CACHED_DATA_SIZE) ∧
  (MAX_CACHED_DATA_SIZE < self.m_cached_data_size + f.get_data_size →
    (record_device.write_data MAX_CACHED_DATA_SIZE self i f now).m_cached_data_size =
      self.m_cached_data_size ∧
    (record_device.write_data MAX_CACHED_DATA_SIZE self i f now).m_write_thread =
      self.m_write_thread ∧
    (record_device.write_data MAX_CACHED_DATA_SIZE self i f now).m_writer = self.m_writer) ∧
  (self.m_cached_data_size + f.get_data_size ≤ MAX_CACHED_DATA_SIZE →
    (record_device.write_data MAX_CACHED_DATA_SIZE self i f now).m_cached_data_size =
      self.m_cached_data_size + f.get_data_size ∧
    (record_device.write_data MAX_CACHED_DATA_SIZE self i f now).m_write_thread =
      self.m_write_thread ++
        [{ sensor_index := i
           capture_time := (now - self.m_capture_time_base) - self.m_record_pause_time
           f := f
           data_size := f.get_data_size }] ∧
    (record_device.write_data MAX_CACHED_DATA_SIZE self i f now).m_writer = self.m_writer)

/-- The threads of a freshly constructed recorder: no producer is inside
`write_data`. -/
def threads.start (self : record_device) : threads :=
  { shared := self, in_write_data := [] }

/-- Two producer threads overlap in `write_data`: thread 0 (sensor 0, 10 bytes)
and thread 1 (sensor 1, 20 bytes) both read the budget at line 91 before either
stores at line 98. -/
def schedule_two_producers : List thread_step :=
  [ thread_step.enter 0 0 (scenario_frame 0 10) 100,
    thread_step.enter 1 1 (scenario_frame 1 20) 100,
    thread_step.store 0 101,
    thread_step.store 1 102 ]

/-- One producer thread, on sensor 0, overlaps the dispatcher: frame A (10 bytes)
is admitted, the hook call for frame B (20 bytes) reads the budget at line 91,
the job of A runs, and only then the hook call for B stores at line 98. -/
def schedule_producer_and_dispatcher : List thread_step :=
  [ thread_step.enter 0 0 (scenario_frame 0 10) 100,
    thread_step.store 0 101,
    thread_step.enter 0 0 (scenario_frame 0 20) 100,
    thread_step.job,
    thread_step.store 0 105 ]

/-! ## Construction (lines 8-46) -/

theorem wrap_sensors_getElem? (sensors : List sensor_interface) (k i : Nat) :
    (record_device.wrap_sensors sensors k)[i]? =
      (sensors[i]?).map (fun sensor => record_sensor.ctor sensor { i := k + i }) := by
  induction sensors generalizing k i with
  | nil => simp [record_device.wrap_sensors]
  | cons sensor rest ih =>
    cases i with
    | zero => simp [record_device.wrap_sensors]
    | succ n =>
      simp only [record_device.wrap_sensors, List.getElem?_cons_succ]
      rw [ih (k + 1) n]
      congr 1
      funext sensor
      congr 2
      omega

theorem wrap_sensors_length (sensors : List sensor_interface) (k : Nat) :
    (record_device.wrap_sensors sensors k).length = sensors.length := by
  induction sensors generalizing k with
  | nil => rfl
  | cons sensor rest ih => simp [record_device.wrap_sensors, ih]

/-- Records written by a job carry the values the job captured: a `write` call
in the writer's log after the job body is an earlier call or carries the job's
capture time, sensor index and frame. -/
theorem job_body_record_tag (self : record_device) (j : job) (data : storage_data)
    (h : writer_call.write data ∈ (self.job_body j).m_writer.calls) :
    writer_call.write data ∈ self.m_writer.calls ∨
      data = { capture_time := j.capture_time, sensor_index := j.sensor_index, f := j.f } := by
  unfold record_device.job_body record_device.first_event_writes record_device.write_header
    writer.call at h
  by_cases hr : self.m_is_recording <;> by_cases hf : self.m_is_first_event <;>
    simp [hr, hf] at h
  · split_ifs at h <;> simp at h <;> tauto
  · exact Or.inl h
  · exact Or.inl h
  · exact Or.inl h

/-! ### Basic facts about the hook -/

theorem write_data_drop (MAX_CACHED_DATA_SIZE : Nat) (self : record_device) (i : Nat)
    (f : frame_interface) (now : Int)
    (h : (self.m_cached_data_size + f.get_data_size % UINT64_RANGE) % UINT64_RANGE >
      MAX_CACHED_DATA_SIZE) :
    record_device.write_data MAX_CACHED_DATA_SIZE self i f now =
      { self with log := self.log ++ ["frame drop occurred"] } := by
  unfold record_device.write_data
  exact if_pos h

theorem write_data_accept (MAX_CACHED_DATA_SIZE : Nat) (self : record_device) (i : Nat)
    (f : frame_interface) (now : Int)
    (h : ¬ (self.m_cached_data_size + f.get_data_size % UINT64_RANGE) % UINT64_RANGE >
      MAX_CACHED_DATA_SIZE) :
    record_device.write_data MAX_CACHED_DATA_SIZE self i f now =
      { self with
        m_cached_data_size :=
          (self.m_cached_data_size + f.get_data_size % UINT64_RANGE) % UINT64_RANGE
        m_write_thread := self.m_write_thread ++
          [{ sensor_index := i
             capture_time := (now - self.m_capture_time_base) - self.m_record_pause_time
             f := f
             data_size := f.get_data_size % UINT64_RANGE }] } := by
  unfold record_device.write_data
  exact if_neg h

theorem call_once_queue (self : record_device) (once_now : Int) :
    (self.call_once once_now).m_write_thread = self.m_write_thread := by
  unfold record_device.call_once
  cases self.m_first_call_flag <;> rfl

theorem call_once_writer (self : record_device) (once_now : Int) :
    (self.call_once once_now).m_writer = self.m_writer := by
  unfold record_device.call_once
  cases self.m_first_call_flag <;> rfl

theorem call_once_flag (self : record_device) (once_now : Int) :
    (self.call_once once_now).m_first_call_flag = true := by
  unfold record_device.call_once
  cases h : self.m_first_call_flag
  · rfl
  · simpa using h

theorem call_once_recording (self : record_device) (once_now : Int) :
    (self.call_once once_now).m_is_recording = self.m_is_recording ∧
    (self.call_once once_now).m_is_first_event = self.m_is_first_event ∧
    (self.call_once once_now).m_record_pause_time = self.m_record_pause_time := by
  unfold record_device.call_once
  cases self.m_first_call_flag <;> exact ⟨rfl, rfl, rfl⟩

theorem call_once_of_fired (self : record_device) (once_now : Int)
    (h : self.m_first_call_flag = true) : self.call_once once_now = self := by
  unfold record_device.call_once
  simp [h]

theorem call_once_of_first (self : record_device) (once_now : Int)
    (h : self.m_first_call_flag = false) :
    self.call_once once_now =
      { self with
        m_capture_time_base := once_now
        m_cached_data_size := 0
        m_first_call_flag := true } := by
  unfold record_device.call_once
  simp [h]

/-- Before the one-shot guard has fired the content of `m_cached_data_size` is
never read: the first hook call gives the same result whatever it holds. -/
theorem capture_hook_first_call_ignores_budget (MAX_CACHED_DATA_SIZE : Nat)
    (self : record_device) (i : Nat) (f : frame_interface) (once_now now : Int) (c : Nat)
    (h : self.m_first_call_flag = false) :
    record_device.capture_hook MAX_CACHED_DATA_SIZE { self with m_cached_data_size := c } i f
        once_now now =
      record_device.capture_hook MAX_CACHED_DATA_SIZE self i f once_now now := by
  unfold record_device.capture_hook
  rw [call_once_of_first self once_now h,
    call_once_of_first { self with m_cached_data_size := c } once_now h]

theorem write_data_fixed (MAX_CACHED_DATA_SIZE : Nat) (self : record_device) (i : Nat)
    (f : frame_interface) (now : Int) :
    (record_device.write_data MAX_CACHED_DATA_SIZE self i f now).m_writer = self.m_writer ∧
    (record_device.write_data MAX_CACHED_DATA_SIZE self i f now).m_is_recording =
      self.m_is_recording ∧
    (record_device.write_data MAX_CACHED_DATA_SIZE self i f now).m_is_first_event =
      self.m_is_first_event ∧
    (record_device.write_data MAX_CACHED_DATA_SIZE self i f now).m_first_call_flag =
      self.m_first_call_flag ∧
    (record_device.write_data MAX_CACHED_DATA_SIZE self i f now).m_capture_time_base =
      self.m_capture_time_base ∧
    (record_device.write_data MAX_CACHED_DATA_SIZE self i f now).m_record_pause_time =
      self.m_record_pause_time := by
  by_cases h : (self.m_cached_data_size + f.get_data_size % UINT64_RANGE) % UINT64_RANGE >
      MAX_CACHED_DATA_SIZE
  · rw [write_data_drop _ _ _ _ _ h]; exact ⟨rfl, rfl, rfl, rfl, rfl, rfl⟩
  · rw [write_data_accept _ _ _ _ _ h]; exact ⟨rfl, rfl, rfl, rfl, rfl, rfl⟩

/-- The capture hook leaves the queue as it was or appends one job, which
carries the hook's sensor index and the frame. -/
theorem capture_hook_queue (MAX_CACHED_DATA_SIZE : Nat) (self : record_device) (i : Nat)
    (f : frame_interface) (once_now now : Int) :
    (record_device.capture_hook MAX_CACHED_DATA_SIZE self i f once_now now).m_write_thread =
        self.m_write_thread ∨
      ∃ capture_time data_size,
        (record_device.capture_hook MAX_CACHED_DATA_SIZE self i f once_now now).m_write_thread =
          self.m_write_thread ++
            [{ sensor_index := i, capture_time := capture_time, f := f, data_size := data_size }] := by
  unfold record_device.capture_hook
  by_cases h : ((self.call_once once_now).m_cached_data_size + f.get_data_size % UINT64_RANGE) %
      UINT64_RANGE > MAX_CACHED_DATA_SIZE
  · rw [write_data_drop _ _ _ _ _ h]
    exact Or.inl (call_once_queue self once_now)
  · rw [write_data_accept _ _ _ _ _ h]
    refine Or.inr ⟨(now - (self.call_once once_now).m_capture_time_base) -
      (self.call_once once_now).m_record_pause_time, f.get_data_size % UINT64_RANGE, ?_⟩
    simp only [call_once_queue]

/-- A job enqueued by the capture hook of index `i` carries sensor index `i`. -/
theorem capture_hook_job_tag (MAX_CACHED_DATA_SIZE : Nat) (self : record_device) (i : Nat)
    (f : frame_interface) (once_now now : Int) (j : job)
    (h : j ∈ (record_device.capture_hook MAX_CACHED_DATA_SIZE self i f once_now now).m_write_thread) :
    j ∈ self.m_write_thread ∨ (j.sensor_index = i ∧ j.f = f) := by
  rcases capture_hook_queue MAX_CACHED_DATA_SIZE self i f once_now now with hq | ⟨ct, ds, hq⟩
  · rw [hq] at h; exact Or.inl h
  · rw [hq] at h
    simp only [List.mem_append, List.mem_singleton] at h
    rcases h with h | h
    · exact Or.inl h
    · right; rw [h]; exact ⟨rfl, rfl⟩

/-- C6. The constructor throws an argument error exactly when the device or the
writer is null; in that case the writer is left as it was (no `reset`) and no
recording sensor was created.  When it completes, the writer received exactly
one more call, a `reset`, and the recorder holds one recording sensor per index
of the wrapped device, in index order, over the wrapped sensor of that index,
with a hook that captured that index; jobs enqueued by that hook, and the
records written from them, carry that index. -/
theorem record_device_ctor_contract (device : Option device_interface)
    (serializer : Option writer) :
    ((∃ what, (record_device.ctor device serializer).outcome =
        ctor_outcome.threw (exception.invalid_argument what)) ↔
      (device = none ∨ serializer = none)) ∧
    ((device = none ∨ serializer = none) →
      (record_device.ctor device serializer).serializer = serializer ∧
      (record_device.ctor device serializer).sensors_created = []) ∧
    ((∃ self, (record_device.ctor device serializer).outcome = ctor_outcome.constructed self) ↔
      ∃ d w, device = some d ∧ serializer = some w ∧ (w.call writer_call.reset).2 = false) ∧
    (∀ self, (record_device.ctor device serializer).outcome = ctor_outcome.constructed self →
      ∃ d w, device = some d ∧ serializer = some w ∧
        self.m_writer.calls = w.calls ++ [writer_call.reset] ∧
        (record_device.ctor device serializer).serializer = some self.m_writer ∧
        (record_device.ctor device serializer).sensors_created = self.m_sensors ∧
        self.get_sensors_count = d.get_sensors_count ∧
        (∀ i, self.m_sensors[i]? =
          (d.sensors[i]?).map (fun sensor => record_sensor.ctor sensor { i := i })) ∧
        (∀ i rs, self.m_sensors[i]? = some rs →
          rs.m_record_callback.i = i ∧
          (∀ MAX_CACHED_DATA_SIZE (st : record_device) f once_now now j,
            j ∈ (record_device.capture_hook MAX_CACHED_DATA_SIZE st rs.m_record_callback.i f
                  once_now now).m_write_thread →
            j ∈ st.m_write_thread ∨ (j.sensor_index = i ∧ j.f = f)) ∧
          (∀ (st : record_device) (j : job) data, j.sensor_index = i →
            writer_call.write data ∈ (st.job_body j).m_writer.calls →
            writer_call.write data ∈ st.m_writer.calls ∨ data.sensor_index = i))) := by
  cases device with
  | none =>
    refine ⟨?_, ?_, ?_, ?_⟩
    · simp [record_device.ctor]
    · intro _; simp [record_device.ctor]
    · simp [record_device.ctor]
    · intro self h; simp [record_device.ctor] at h
  | some d =>
    cases serializer with
    | none =>
      refine ⟨?_, ?_, ?_, ?_⟩
      · simp [record_device.ctor]
      · intro _; simp [record_device.ctor]
      · simp [record_device.ctor]
      · intro self h; simp [record_device.ctor] at h
    | some w =>
      refine ⟨?_, ?_, ?_, ?_⟩
      · simp only [record_device.ctor]
        split_ifs <;> simp
      · intro h; simp at h
      · simp only [record_device.ctor]
        split_ifs with hthrow <;> simp [hthrow]
      · intro self h
        simp only [record_device.ctor] at h
        by_cases hthrow : (w.call writer_call.reset).2 = true
        · simp [hthrow] at h
        · simp only [hthrow] at h
          simp only [Bool.false_eq_true, if_false, ctor_outcome.constructed.injEq] at h
          subst h
          refine ⟨d, w, rfl, rfl, ?_, ?_, ?_, ?_, ?_, ?_⟩
          · simp [writer.call]
          · simp [record_device.ctor, hthrow]
          · simp [record_device.ctor, hthrow]
          · simp [record_device.get_sensors_count, device_interface.get_sensors_count,
              wrap_sensors_length]
          · intro i
            simpa using wrap_sensors_getElem? d.sensors 0 i
          · intro i rs hrs
            have hrs2 : (d.sensors[i]?).map
                (fun sensor => record_sensor.ctor sensor { i := i }) = some rs := by
              have := wrap_sensors_getElem? d.sensors 0 i
              simp only [Nat.zero_add] at this
              rw [← this]; exact hrs
            have hi : rs.m_record_callback.i = i := by
              cases hd : d.sensors[i]? with
              | none => simp [hd] at hrs2
              | some sensor =>
                simp [hd] at hrs2
                rw [← hrs2]; rfl
            refine ⟨hi, ?_, ?_⟩
            · intro MAX st f once_now now j hj
              rw [hi] at hj
              exact capture_hook_job_tag MAX st i f once_now now j hj
            · intro st j data hji hdata
              rcases job_body_record_tag st j data hdata with h1 | h1
              · exact Or.inl h1
              · right; rw [h1]; exact hji

/-! ## The recording sensor (lines 258-319) and the mock frame (lines 321-350) -/

/-- C7. On a recording sensor with an intercept installed `start` changes
nothing at all; hence two `start` calls equal the first one alone: the wrapped
sensor's `start` is called once, and a frame it then delivers triggers the
capture hook once, on a mock frame over it, and is then forwarded once to the
callback of the first `start`.  `stop` calls the wrapped sensor's `stop` and
clears the intercept, and a `start` after it installs a new intercept and
starts the wrapped sensor again. -/
theorem record_sensor_start_stop (self : record_sensor) (first second : frame_callback_ptr)
    (f : frame) :
    (self.m_frame_callback.isSome = true → self.start second = self) ∧
    (self.start first).start second = self.start first ∧
    (self.m_frame_callback = none →
      ((self.start first).start second).m_frame_callback = some { callback := first } ∧
      ((self.start first).start second).m_sensor.calls =
        self.m_sensor.calls ++ [sensor_call.start { callback := first }] ∧
      ((self.start first).start second).deliver f =
        [ callback_event.record self.m_record_callback
            (mock_frame.as_frame_interface
              { m_sensor := (self.start first).m_sensor, m_frame := f }),
          callback_event.live first f ]) ∧
    self.stop.m_sensor.calls = self.m_sensor.calls ++ [sensor_call.stop] ∧
    self.stop.m_frame_callback = none ∧
    self.stop.deliver f = [] ∧
    (self.stop.start second).m_frame_callback = some { callback := second } ∧
    (self.stop.start second).m_sensor.calls =
      self.m_sensor.calls ++ [sensor_call.stop, sensor_call.start { callback := second }] ∧
    (self.stop.start second).deliver f =
      [ callback_event.record self.m_record_callback
          (mock_frame.as_frame_interface
            { m_sensor := (self.stop.start second).m_sensor, m_frame := f }),
        callback_event.live second f ] := by
  have hinstalled : ∀ (rs : record_sensor) (cb : frame_callback_ptr),
      rs.m_frame_callback.isSome = true → rs.start cb = rs := by
    intro rs cb h
    unfold record_sensor.start
    simp [h]
  have hfresh : ∀ (rs : record_sensor) (cb : frame_callback_ptr),
      rs.m_frame_callback = none →
        rs.start cb =
          { rs with
            m_frame_callback := some { callback := cb }
            m_sensor := rs.m_sensor.start { callback := cb } } := by
    intro rs cb h
    unfold record_sensor.start
    simp [h]
  have htwice : (self.start first).start second = self.start first := by
    apply hinstalled
    cases h : self.m_frame_callback with
    | none => rw [hfresh self first h]; rfl
    | some cb => rw [hinstalled self first (by simp [h])]; simp [h]
  refine ⟨hinstalled self second, htwice, ?_, rfl, rfl, rfl, ?_, ?_, ?_⟩
  · intro h
    rw [htwice, hfresh self first h]
    refine ⟨rfl, rfl, rfl⟩
  · rw [hfresh self.stop second rfl]
  · rw [hfresh self.stop second rfl]
    simp [record_sensor.stop, sensor_interface.start, sensor_interface.stop]
  · rw [hfresh self.stop second rfl]
    rfl

/-- C8, as stated, fails: over a raw frame with timestamp 5, hardware-clock
domain and stream index 1 the mock frame does not report the same surface. -/
theorem mock_frame_surface_differs :
    ¬ mock_frame.same_surface (scenario_sensor 0) (scenario_raw_frame 10) := by
  unfold mock_frame.same_surface
  decide

/-- C8, amended. A mock frame reports the payload and payload length of the raw
frame it wraps and the sensor it was built with; its timestamp is always 0, its
timestamp domain always system time and its stream index always 0, whatever the
raw frame holds. -/
theorem mock_frame_surface (sensor : sensor_interface) (f : frame) :
    (mock_frame.mk sensor f).get_data = f.data ∧
    (mock_frame.mk sensor f).get_data_size = f.data.length ∧
    (mock_frame.mk sensor f).get_sensor = sensor ∧
    (mock_frame.mk sensor f).get_timestamp = 0 ∧
    (mock_frame.mk sensor f).get_timestamp_domain =
      rs2_timestamp_domain.RS2_TIMESTAMP_DOMAIN_SYSTEM_TIME ∧
    (mock_frame.mk sensor f).get_stream_index = 0 :=
  ⟨rfl, rfl, rfl, rfl, rfl, rfl⟩

/-- The error half of C9: `extend_to` throws an invalid-value error exactly for
a kind that is none of debug, info, motion, options, video, region of interest,
and for debug on a wrapped sensor without the debug capability. -/
theorem extend_to_throws_iff (self : record_sensor) (extension_type : rs2_extension_type) :
    (∃ what, self.extend_to extension_type =
        extend_to_outcome.threw (exception.invalid_value_exception what)) ↔
      ((extension_type ≠ rs2_extension_type.RS2_EXTENSION_TYPE_DEBUG ∧
        extension_type ≠ rs2_extension_type.RS2_EXTENSION_TYPE_INFO ∧
        extension_type ≠ rs2_extension_type.RS2_EXTENSION_TYPE_MOTION ∧
        extension_type ≠ rs2_extension_type.RS2_EXTENSION_TYPE_OPTIONS ∧
        extension_type ≠ rs2_extension_type.RS2_EXTENSION_TYPE_VIDEO ∧
        extension_type ≠ rs2_extension_type.RS2_EXTENSION_TYPE_ROI) ∨
       (extension_type = rs2_extension_type.RS2_EXTENSION_TYPE_DEBUG ∧
        self.m_sensor.debug_api = false)) := by
  cases extension_type <;> simp [record_sensor.extend_to]
  · cases self.m_sensor.debug_api <;> simp

/-- C9, the result half, at the kinds info, motion, options, video and region
of interest: `extend_to` throws nothing and executes no `return` statement;
control leaves the `switch` and reaches the end of the function. -/
theorem extend_to_uninstrumented_has_no_return (self : record_sensor) :
    self.extend_to rs2_extension_type.RS2_EXTENSION_TYPE_INFO =
      extend_to_outcome.end_of_function_without_return ∧
    self.extend_to rs2_extension_type.RS2_EXTENSION_TYPE_MOTION =
      extend_to_outcome.end_of_function_without_return ∧
    self.extend_to rs2_extension_type.RS2_EXTENSION_TYPE_OPTIONS =
      extend_to_outcome.end_of_function_without_return ∧
    self.extend_to rs2_extension_type.RS2_EXTENSION_TYPE_VIDEO =
      extend_to_outcome.end_of_function_without_return ∧
    self.extend_to rs2_extension_type.RS2_EXTENSION_TYPE_ROI =
      extend_to_outcome.end_of_function_without_return :=
  ⟨rfl, rfl, rfl, rfl, rfl⟩

/-! ## The dispatcher job (lines 102-125) -/

theorem scenario_recorder_constructed :
    (record_device.ctor (some scenario_device) (some scenario_writer)).outcome =
      ctor_outcome.constructed scenario_state := by
  decide

theorem job_body_not_recording (self : record_device) (j : job)
    (h : self.m_is_recording = false) : self.job_body j = self := by
  unfold record_device.job_body
  simp [h]

theorem job_body_later_event (self : record_device) (j : job)
    (hr : self.m_is_recording = true) (hf : self.m_is_first_event = false) :
    self.job_body j =
      { self with
        m_cached_data_size :=
          (self.m_cached_data_size + (UINT64_RANGE - j.data_size % UINT64_RANGE)) %
            UINT64_RANGE } := by
  unfold record_device.job_body
  simp [hr, hf]

theorem job_body_first_event (self : record_device) (j : job)
    (hr : self.m_is_recording = true) (hf : self.m_is_first_event = true) :
    self.job_body j =
      { self.first_event_writes j with
        m_is_first_event := false
        m_cached_data_size :=
          ((self.first_event_writes j).m_cached_data_size +
            (UINT64_RANGE - j.data_size % UINT64_RANGE)) % UINT64_RANGE } := by
  unfold record_device.job_body
  simp [hr, hf]

/-- The `try` block touches the writer and the error log only, and the writer
receives the header call, followed by the record unless the header call
threw. -/
theorem first_event_writes_effect (self : record_device) (j : job) :
    (self.first_event_writes j).m_write_thread = self.m_write_thread ∧
    (self.first_event_writes j).m_is_recording = self.m_is_recording ∧
    (self.first_event_writes j).m_cached_data_size = self.m_cached_data_size ∧
    (self.first_event_writes j).m_first_call_flag = self.m_first_call_flag ∧
    (self.first_event_writes j).m_capture_time_base = self.m_capture_time_base ∧
    (self.first_event_writes j).m_record_pause_time = self.m_record_pause_time ∧
    ((self.first_event_writes j).m_writer.calls =
        self.m_writer.calls ++ [writer_call.write_device_description self.header_snapshot] ∨
     (self.first_event_writes j).m_writer.calls =
        self.m_writer.calls ++ [writer_call.write_device_description self.header_snapshot,
          writer_call.write
            { capture_time := j.capture_time, sensor_index := j.sensor_index, f := j.f }]) := by
  unfold record_device.first_event_writes record_device.write_header writer.call
  by_cases h1 : self.m_writer.calls.length ∈ self.m_writer.throwing
  · simp [h1]
  · by_cases h2 : self.m_writer.calls.length + 1 ∈ self.m_writer.throwing
    · simp [h1, h2]
    · simp [h1, h2]

/-- What a job body does while recording is enabled: it leaves the queue, the
one-shot guard, the base and the pause time alone, clears the first-event
flag, subtracts its size from the budget in 64-bit arithmetic, and calls the
writer only when it is the first event. -/
theorem job_body_effect (self : record_device) (j : job) (hr : self.m_is_recording = true) :
    (self.job_body j).m_write_thread = self.m_write_thread ∧
    (self.job_body j).m_is_recording = true ∧
    (self.job_body j).m_is_first_event = false ∧
    (self.job_body j).m_cached_data_size =
      (self.m_cached_data_size + (UINT64_RANGE - j.data_size % UINT64_RANGE)) % UINT64_RANGE ∧
    (self.job_body j).m_first_call_flag = self.m_first_call_flag ∧
    (self.job_body j).m_capture_time_base = self.m_capture_time_base ∧
    (self.job_body j).m_record_pause_time = self.m_record_pause_time ∧
    (self.m_is_first_event = false → (self.job_body j).m_writer = self.m_writer) ∧
    (self.m_is_first_event = true →
      ((self.job_body j).m_writer.calls =
          self.m_writer.calls ++ [writer_call.write_device_description self.header_snapshot] ∨
       (self.job_body j).m_writer.calls =
          self.m_writer.calls ++ [writer_call.write_device_description self.header_snapshot,
            writer_call.write
              { capture_time := j.capture_time, sensor_index := j.sensor_index, f := j.f }])) := by
  cases hf : self.m_is_first_event
  · rw [job_body_later_event self j hr hf]
    exact ⟨rfl, hr, hf, rfl, rfl, rfl, rfl, fun _ => rfl, fun h => by simp at h⟩
  · rw [job_body_first_event self j hr hf]
    obtain ⟨h1, h2, h3, h4, h5, h6, h7⟩ := first_event_writes_effect self j
    refine ⟨h1, ?_, rfl, ?_, h4, h5, h6, fun h => by simp at h, fun _ => h7⟩
    · show (self.first_event_writes j).m_is_recording = true
      rw [h2]; exact hr
    · show ((self.first_event_writes j).m_cached_data_size + _) % _ = _
      rw [h3]

theorem run_next_job_nil (self : record_device) (hq : self.m_write_thread = []) :
    self.run_next_job = self := by
  unfold record_device.run_next_job
  rw [hq]

theorem run_next_job_cons (self : record_device) (j : job) (rest : List job)
    (hq : self.m_write_thread = j :: rest) :
    self.run_next_job = record_device.job_body { self with m_write_thread := rest } j := by
  unfold record_device.run_next_job
  rw [hq]

/-- The base, the one-shot guard and the pause time are never touched by a
job. -/
theorem run_next_job_fixed (self : record_device) :
    self.run_next_job.m_first_call_flag = self.m_first_call_flag ∧
    self.run_next_job.m_capture_time_base = self.m_capture_time_base ∧
    self.run_next_job.m_record_pause_time = self.m_record_pause_time := by
  cases hq : self.m_write_thread with
  | nil => rw [run_next_job_nil self hq]; exact ⟨rfl, rfl, rfl⟩
  | cons j rest =>
    rw [run_next_job_cons self j rest hq]
    rcases Bool.eq_false_or_eq_true self.m_is_recording with hr | hr
    · obtain ⟨-, -, -, -, h5, h6, h7, -, -⟩ :=
        job_body_effect { self with m_write_thread := rest } j hr
      exact ⟨h5, h6, h7⟩
    · rw [job_body_not_recording { self with m_write_thread := rest } j hr]
      exact ⟨rfl, rfl, rfl⟩

/-! ## Runs from a freshly constructed recorder -/

theorem ctor_constructed_members (d : device_interface) (w : writer) (self : record_device)
    (h : (record_device.ctor (some d) (some w)).outcome = ctor_outcome.constructed self) :
    self.m_write_thread = [] ∧ self.m_is_first_event = true ∧ self.m_is_recording = true ∧
    self.m_record_pause_time = 0 ∧ self.m_writer.calls = w.calls ++ [writer_call.reset] ∧
    self.m_first_call_flag = false ∧ self.m_cached_data_size = 0 := by
  simp only [record_device.ctor] at h
  by_cases hthrow : (w.call writer_call.reset).2 = true
  · simp [hthrow] at h
  · simp only [hthrow, Bool.false_eq_true, if_false, ctor_outcome.constructed.injEq] at h
    subst h
    exact ⟨rfl, rfl, rfl, rfl, rfl, rfl, rfl⟩

theorem capture_hook_fixed (MAX_CACHED_DATA_SIZE : Nat) (self : record_device) (i : Nat)
    (f : frame_interface) (once_now now : Int) :
    (record_device.capture_hook MAX_CACHED_DATA_SIZE self i f once_now now).m_writer =
      self.m_writer ∧
    (record_device.capture_hook MAX_CACHED_DATA_SIZE self i f once_now now).m_is_recording =
      self.m_is_recording ∧
    (record_device.capture_hook MAX_CACHED_DATA_SIZE self i f once_now now).m_is_first_event =
      self.m_is_first_event ∧
    (record_device.capture_hook MAX_CACHED_DATA_SIZE self i f once_now now).m_record_pause_time =
      self.m_record_pause_time := by
  unfold record_device.capture_hook
  obtain ⟨h1, h2, h3, -, -, h6⟩ :=
    write_data_fixed MAX_CACHED_DATA_SIZE (self.call_once once_now) i f now
  obtain ⟨c1, c2, c3⟩ := call_once_recording self once_now
  rw [h1, h2, h3, h6, call_once_writer, c1, c2, c3]
  exact ⟨rfl, rfl, rfl, rfl⟩

theorem header_state_capture (base : List writer_call) (MAX_CACHED_DATA_SIZE : Nat)
    (self : record_device) (i : Nat) (f : frame_interface) (once_now now : Int)
    (h : self.header_state base) :
    (record_device.capture_hook MAX_CACHED_DATA_SIZE self i f once_now now).header_state base := by
  obtain ⟨h1, h2, h3, -⟩ := capture_hook_fixed MAX_CACHED_DATA_SIZE self i f once_now now
  unfold record_device.header_state at h ⊢
  rw [h1, h2, h3]
  exact h

theorem header_state_job (base : List writer_call) (self : record_device)
    (h : self.header_state base) :
    self.run_next_job.header_state base ∧
      (self.m_write_thread ≠ [] ∨ self.m_is_first_event = false →
        self.run_next_job.m_is_first_event = false) := by
  cases hq : self.m_write_thread with
  | nil =>
    rw [run_next_job_nil self hq]
    exact ⟨h, fun hne => by simpa using hne⟩
  | cons j rest =>
    rw [run_next_job_cons self j rest hq]
    obtain ⟨hr, hshape⟩ := h
    obtain ⟨-, e2, e3, -, -, -, -, e8, e9⟩ :=
      job_body_effect { self with m_write_thread := rest } j hr
    refine ⟨⟨e2, Or.inr ⟨e3, ?_⟩⟩, fun _ => e3⟩
    rcases hshape with ⟨hf, hcalls⟩ | ⟨hf, d, hcalls⟩
    · refine ⟨self.header_snapshot, ?_⟩
      rcases e9 hf with e | e
      · left; rw [e]; show self.m_writer.calls ++ _ = _; rw [hcalls]; rfl
      · right
        refine ⟨{ capture_time := j.capture_time, sensor_index := j.sensor_index, f := j.f }, ?_⟩
        rw [e]; show self.m_writer.calls ++ _ = _; rw [hcalls]; rfl
    · refine ⟨d, ?_⟩
      rw [e8 hf]
      exact hcalls

theorem header_state_run (base : List writer_call) (MAX_CACHED_DATA_SIZE : Nat)
    (tr : List step) (self : record_device) (h : self.header_state base) :
    (record_device.run MAX_CACHED_DATA_SIZE self tr).header_state base ∧
      (0 < record_device.jobs_executed MAX_CACHED_DATA_SIZE self tr ∨
          self.m_is_first_event = false →
        (record_device.run MAX_CACHED_DATA_SIZE self tr).m_is_first_event = false) := by
  induction tr generalizing self with
  | nil =>
    refine ⟨h, fun hx => ?_⟩
    rcases hx with hx | hx
    · simp [record_device.jobs_executed] at hx
    · exact hx
  | cons a rest ih =>
    cases a with
    | capture i f once_now now =>
      have hstep := header_state_capture base MAX_CACHED_DATA_SIZE self i f once_now now h
      obtain ⟨ih1, ih2⟩ := ih _ hstep
      refine ⟨ih1, fun hx => ih2 ?_⟩
      rcases hx with hx | hx
      · left
        simpa [record_device.jobs_executed] using hx
      · right
        rw [(capture_hook_fixed MAX_CACHED_DATA_SIZE self i f once_now now).2.2.1]
        exact hx
    | job =>
      obtain ⟨hstep, hfirst⟩ := header_state_job base self h
      obtain ⟨ih1, ih2⟩ := ih _ hstep
      refine ⟨ih1, fun hx => ?_⟩
      rcases hx with hx | hx
      · by_cases hq : self.m_write_thread = []
        · apply ih2
          left
          simpa [record_device.jobs_executed, hq] using hx
        · exact ih2 (Or.inr (hfirst (Or.inl hq)))
      · exact ih2 (Or.inr (hfirst (Or.inr hx)))

/-- C2. From a freshly constructed recorder, after any sequence of capture-hook
calls and job executions, the writer's log is its log before construction, the
`reset` of the constructor, and a session part in which
`write_device_description` occurs at most once, exactly once as soon as one
job has executed, and before which no `write(record)` occurs. -/
theorem header_written_once (MAX_CACHED_DATA_SIZE : Nat) (d : device_interface) (w : writer)
    (self : record_device) (tr : List step)
    (h : (record_device.ctor (some d) (some w)).outcome = ctor_outcome.constructed self) :
    ∃ session,
      (record_device.run MAX_CACHED_DATA_SIZE self tr).m_writer.calls =
        w.calls ++ writer_call.reset :: session ∧
      session.countP writer_call.is_write_device_description ≤ 1 ∧
      (0 < record_device.jobs_executed MAX_CACHED_DATA_SIZE self tr →
        session.countP writer_call.is_write_device_description = 1) ∧
      (∀ pre data post, session = pre ++ writer_call.write data :: post →
        ∃ description, writer_call.write_device_description description ∈ pre) := by
  obtain ⟨-, hfirst, hrec, -, hcalls, -, -⟩ := ctor_constructed_members d w self h
  have hstart : self.header_state (w.calls ++ [writer_call.reset]) :=
    ⟨hrec, Or.inl ⟨hfirst, hcalls⟩⟩
  obtain ⟨⟨-, hshape⟩, hexec⟩ :=
    header_state_run (w.calls ++ [writer_call.reset]) MAX_CACHED_DATA_SIZE tr self hstart
  rcases hshape with ⟨hf, hc⟩ | ⟨hf, dd, hc | ⟨r, hc⟩⟩
  · refine ⟨[], by simpa using hc, by simp, ?_, ?_⟩
    · intro hpos
      rw [hexec (Or.inl hpos)] at hf
      exact absurd hf (by simp)
    · intro pre data post hsplit
      simp at hsplit
  · refine ⟨[writer_call.write_device_description dd], by simpa using hc, ?_, ?_, ?_⟩
    · simp [writer_call.is_write_device_description]
    · intro _; simp [writer_call.is_write_device_description]
    · intro pre data post hsplit
      cases pre with
      | nil => simp at hsplit
      | cons x pre2 =>
        simp at hsplit
  · refine ⟨[writer_call.write_device_description dd, writer_call.write r],
      by simpa using hc, ?_, ?_, ?_⟩
    · simp [writer_call.is_write_device_description]
    · intro _; simp [writer_call.is_write_device_description]
    · intro pre data post hsplit
      cases pre with
      | nil => simp at hsplit
      | cons x pre2 =>
        simp at hsplit
        obtain ⟨hx, -⟩ := hsplit
        exact ⟨dd, by rw [← hx]; simp⟩

/-- Witness of C2 on the two-sensor scenario: two frames submitted, two jobs
executed. -/
theorem header_written_once_witness :
    ∃ session,
      (record_device.run 1000 scenario_state
          [step.capture 0 (scenario_frame 0 10) 100 101,
           step.capture 1 (scenario_frame 1 20) 100 105, step.job, step.job]).m_writer.calls =
        scenario_writer.calls ++ writer_call.reset :: session ∧
      session.countP writer_call.is_write_device_description ≤ 1 ∧
      (0 < record_device.jobs_executed 1000 scenario_state
          [step.capture 0 (scenario_frame 0 10) 100 101,
           step.capture 1 (scenario_frame 1 20) 100 105, step.job, step.job] →
        session.countP writer_call.is_write_device_description = 1) ∧
      (∀ pre data post, session = pre ++ writer_call.write data :: post →
        ∃ description, writer_call.write_device_description description ∈ pre) :=
  header_written_once 1000 scenario_device scenario_writer scenario_state
    [step.capture 0 (scenario_frame 0 10) 100 101,
     step.capture 1 (scenario_frame 1 20) 100 105, step.job, step.job]
    scenario_recorder_constructed

theorem records_append (xs ys : List writer_call) :
    writer_call.records (xs ++ ys) = writer_call.records xs ++ writer_call.records ys := by
  induction xs with
  | nil => rfl
  | cons x rest ih =>
    cases x <;> simp [writer_call.records, ih]

/-- In every run from a freshly constructed recorder the writer receives at
most one `write(record)` call, whatever the number of admitted frames and of
executed jobs. -/
theorem at_most_one_record_written (MAX_CACHED_DATA_SIZE : Nat) (d : device_interface)
    (w : writer) (self : record_device) (tr : List step)
    (h : (record_device.ctor (some d) (some w)).outcome = ctor_outcome.constructed self) :
    (writer_call.records (record_device.run MAX_CACHED_DATA_SIZE self tr).m_writer.calls).length ≤
      (writer_call.records w.calls).length + 1 := by
  obtain ⟨-, hfirst, hrec, -, hcalls, -, -⟩ := ctor_constructed_members d w self h
  have hstart : self.header_state (w.calls ++ [writer_call.reset]) :=
    ⟨hrec, Or.inl ⟨hfirst, hcalls⟩⟩
  obtain ⟨⟨-, hshape⟩, -⟩ :=
    header_state_run (w.calls ++ [writer_call.reset]) MAX_CACHED_DATA_SIZE tr self hstart
  rcases hshape with ⟨-, hc⟩ | ⟨-, dd, hc | ⟨r, hc⟩⟩ <;> rw [hc] <;>
    simp [records_append, writer_call.records]

/-- C1 at its own scenario (bound 1000, frame A of 10 bytes on sensor 0, then
frame B of 20 bytes on sensor 1, both admitted, then both jobs executed): the
writer receives the header and the record of A only; the job of B runs, gives
its 20 bytes back to the budget and writes nothing. -/
theorem second_record_is_not_written :
    (record_device.ctor (some scenario_device) (some scenario_writer)).outcome =
      ctor_outcome.constructed scenario_state ∧
    (record_device.run 1000 scenario_state
        [step.capture 0 (scenario_frame 0 10) 100 101,
         step.capture 1 (scenario_frame 1 20) 100 105]).m_write_thread.map
      (fun j => (j.sensor_index, j.f)) = [(0, scenario_frame 0 10), (1, scenario_frame 1 20)] ∧
    record_device.jobs_executed 1000 scenario_state
        [step.capture 0 (scenario_frame 0 10) 100 101,
         step.capture 1 (scenario_frame 1 20) 100 105, step.job, step.job] = 2 ∧
    (record_device.run 1000 scenario_state
        [step.capture 0 (scenario_frame 0 10) 100 101,
         step.capture 1 (scenario_frame 1 20) 100 105, step.job, step.job]).m_write_thread = [] ∧
    (record_device.run 1000 scenario_state
        [step.capture 0 (scenario_frame 0 10) 100 101,
         step.capture 1 (scenario_frame 1 20) 100 105, step.job, step.job]).m_writer.calls =
      [ writer_call.reset,
        writer_call.write_device_description scenario_header,
        writer_call.write
          { capture_time := 1, sensor_index := 0, f := scenario_frame 0 10 } ] := by
  refine ⟨by decide, by decide, by decide, by decide, by decide⟩

/-! ## The cached byte budget -/

theorem pending_bytes_cons (self : record_device) (j : job) (rest : List job)
    (hq : self.m_write_thread = j :: rest) :
    self.pending_bytes = j.f.get_data_size + (rest.map (fun j => j.f.get_data_size)).sum := by
  unfold record_device.pending_bytes
  rw [hq]
  simp

theorem budget_state_call_once (MAX_CACHED_DATA_SIZE : Nat) (self : record_device)
    (once_now : Int) (h : self.budget_state MAX_CACHED_DATA_SIZE) :
    (self.call_once once_now).budget_state MAX_CACHED_DATA_SIZE ∧
      (self.call_once once_now).m_cached_data_size = self.m_cached_data_size := by
  rcases Bool.eq_false_or_eq_true self.m_first_call_flag with hflag | hflag
  · rw [call_once_of_fired self once_now hflag]
    exact ⟨h, rfl⟩
  · rw [call_once_of_first self once_now hflag]
    obtain ⟨h1, h2, h3, h4, h5⟩ := h
    have hq : self.m_write_thread = [] := h5 hflag
    have hzero : self.m_cached_data_size = 0 := by
      rw [h3]; unfold record_device.pending_bytes; rw [hq]; rfl
    refine ⟨⟨h1, Nat.zero_le _, ?_, h4, fun hx => by simp at hx⟩, hzero.symm⟩
    show 0 = record_device.pending_bytes _
    unfold record_device.pending_bytes
    show 0 = (self.m_write_thread.map _).sum
    rw [hq]; rfl

theorem budget_state_write_data (MAX_CACHED_DATA_SIZE : Nat) (self : record_device) (i : Nat)
    (f : frame_interface) (now : Int) (h : self.budget_state MAX_CACHED_DATA_SIZE)
    (hflag : self.m_first_call_flag = true)
    (hfit : f.get_data_size + MAX_CACHED_DATA_SIZE < UINT64_RANGE) :
    (record_device.write_data MAX_CACHED_DATA_SIZE self i f now).budget_state
      MAX_CACHED_DATA_SIZE := by
  obtain ⟨h1, h2, h3, h4, -⟩ := h
  have hsize : f.get_data_size % UINT64_RANGE = f.get_data_size := Nat.mod_eq_of_lt (by omega)
  have hsum : (self.m_cached_data_size + f.get_data_size % UINT64_RANGE) % UINT64_RANGE =
      self.m_cached_data_size + f.get_data_size := by
    rw [hsize]; exact Nat.mod_eq_of_lt (by omega)
  by_cases hdrop : (self.m_cached_data_size + f.get_data_size % UINT64_RANGE) % UINT64_RANGE >
      MAX_CACHED_DATA_SIZE
  · rw [write_data_drop _ _ _ _ _ hdrop]
    exact ⟨h1, h2, h3, h4, fun hx => by rw [hflag] at hx; simp at hx⟩
  · rw [write_data_accept _ _ _ _ _ hdrop]
    rw [hsum] at hdrop
    refine ⟨h1, ?_, ?_, ?_, fun hx => ?_⟩
    · show (self.m_cached_data_size + f.get_data_size % UINT64_RANGE) % UINT64_RANGE ≤ _
      rw [hsum]; omega
    · show (self.m_cached_data_size + f.get_data_size % UINT64_RANGE) % UINT64_RANGE =
        record_device.pending_bytes _
      rw [hsum]
      unfold record_device.pending_bytes at h3 ⊢
      show _ = ((self.m_write_thread ++ _).map _).sum
      rw [List.map_append, List.sum_append, ← h3]
      simp
    · intro j hj
      have hj2 : j ∈ self.m_write_thread ∨ j =
          { sensor_index := i
            capture_time := (now - self.m_capture_time_base) - self.m_record_pause_time
            f := f
            data_size := f.get_data_size % UINT64_RANGE } := by
        have : j ∈ self.m_write_thread ++
            [{ sensor_index := i
               capture_time := (now - self.m_capture_time_base) - self.m_record_pause_time
               f := f
               data_size := f.get_data_size % UINT64_RANGE }] := hj
        simpa using this
      rcases hj2 with hj2 | hj2
      · exact h4 j hj2
      · rw [hj2]; exact ⟨hsize, hfit⟩
    · have : self.m_first_call_flag = false := hx
      rw [hflag] at this; simp at this

theorem budget_state_capture (MAX_CACHED_DATA_SIZE : Nat) (self : record_device) (i : Nat)
    (f : frame_interface) (once_now now : Int) (h : self.budget_state MAX_CACHED_DATA_SIZE)
    (hfit : f.get_data_size + MAX_CACHED_DATA_SIZE < UINT64_RANGE) :
    (record_device.capture_hook MAX_CACHED_DATA_SIZE self i f once_now now).budget_state
      MAX_CACHED_DATA_SIZE := by
  unfold record_device.capture_hook
  exact budget_state_write_data MAX_CACHED_DATA_SIZE _ i f now
    (budget_state_call_once MAX_CACHED_DATA_SIZE self once_now h).1
    (call_once_flag self once_now) hfit

theorem budget_state_job (MAX_CACHED_DATA_SIZE : Nat) (self : record_device)
    (h : self.budget_state MAX_CACHED_DATA_SIZE) :
    self.run_next_job.budget_state MAX_CACHED_DATA_SIZE ∧
      (∀ j rest, self.m_write_thread = j :: rest →
        j.data_size ≤ self.m_cached_data_size ∧
        self.run_next_job.m_write_thread = rest ∧
        self.run_next_job.m_cached_data_size = self.m_cached_data_size - j.f.get_data_size) := by
  cases hq : self.m_write_thread with
  | nil =>
    rw [run_next_job_nil self hq]
    exact ⟨h, fun j rest hx => by simp at hx⟩
  | cons j rest =>
    rw [run_next_job_cons self j rest hq]
    obtain ⟨h1, h2, h3, h4, h5⟩ := h
    obtain ⟨e1, e2, -, e4, e5, -, -, -, -⟩ :=
      job_body_effect { self with m_write_thread := rest } j h1
    have hj := h4 j (by rw [hq]; simp)
    have hpend := pending_bytes_cons self j rest hq
    have hnew : (record_device.job_body { self with m_write_thread := rest } j).m_cached_data_size =
        (rest.map (fun j => j.f.get_data_size)).sum := by
      rw [e4]
      show (self.m_cached_data_size + (UINT64_RANGE - j.data_size % UINT64_RANGE)) %
        UINT64_RANGE = _
      have hmod : j.data_size % UINT64_RANGE = j.data_size := Nat.mod_eq_of_lt (by omega)
      rw [hmod]
      have hle : j.data_size ≤ self.m_cached_data_size := by omega
      have hrw : self.m_cached_data_size + (UINT64_RANGE - j.data_size) =
          (self.m_cached_data_size - j.data_size) + UINT64_RANGE := by omega
      rw [hrw, Nat.add_mod_right, Nat.mod_eq_of_lt (by omega)]
      omega
    refine ⟨⟨e2, ?_, ?_, ?_, ?_⟩, ?_⟩
    · rw [hnew]; omega
    · rw [hnew]; unfold record_device.pending_bytes; rw [e1]
    · intro k hk
      rw [e1] at hk
      exact h4 k (by rw [hq]; exact List.mem_cons_of_mem _ hk)
    · intro hx
      rw [e5] at hx
      have : self.m_first_call_flag = false := hx
      have hnil := h5 this
      rw [hq] at hnil
      simp at hnil
    · intro j2 rest2 hx
      simp only [List.cons.injEq] at hx
      obtain ⟨hx1, hx2⟩ := hx
      subst hx1 hx2
      refine ⟨by omega, e1, ?_⟩
      rw [hnew]; omega

theorem budget_state_run (MAX_CACHED_DATA_SIZE : Nat) (tr : List step) (self : record_device)
    (h : self.budget_state MAX_CACHED_DATA_SIZE)
    (hfit : ∀ a ∈ tr, step.fits MAX_CACHED_DATA_SIZE a) :
    (record_device.run MAX_CACHED_DATA_SIZE self tr).budget_state MAX_CACHED_DATA_SIZE := by
  induction tr generalizing self with
  | nil => exact h
  | cons a rest ih =>
    have hrest : ∀ b ∈ rest, step.fits MAX_CACHED_DATA_SIZE b :=
      fun b hb => hfit b (List.mem_cons_of_mem _ hb)
    cases a with
    | capture i f once_now now =>
      have hthis : step.fits MAX_CACHED_DATA_SIZE (step.capture i f once_now now) :=
        hfit _ (List.mem_cons_self _ _)
      exact ih _ (budget_state_capture MAX_CACHED_DATA_SIZE self i f once_now now h hthis) hrest
    | job => exact ih _ (budget_state_job MAX_CACHED_DATA_SIZE self h).1 hrest

/-- Without overlap the budget is kept: from a freshly constructed recorder,
after any sequence of whole hook calls and whole jobs, none overlapping
another, in which every frame size added to the bound fits in 64 bits, the
budget is at most the bound and equals the pending bytes, the job at the head
of the queue is never larger than the budget, and executing it subtracts
exactly its frame size. -/
theorem sequential_budget_invariant (MAX_CACHED_DATA_SIZE : Nat) (d : device_interface)
    (w : writer) (self : record_device) (tr : List step)
    (h : (record_device.ctor (some d) (some w)).outcome = ctor_outcome.constructed self)
    (hfit : ∀ a ∈ tr, step.fits MAX_CACHED_DATA_SIZE a) :
    (record_device.run MAX_CACHED_DATA_SIZE self tr).m_cached_data_size ≤ MAX_CACHED_DATA_SIZE ∧
    (record_device.run MAX_CACHED_DATA_SIZE self tr).m_cached_data_size =
      (record_device.run MAX_CACHED_DATA_SIZE self tr).pending_bytes ∧
    (∀ j rest, (record_device.run MAX_CACHED_DATA_SIZE self tr).m_write_thread = j :: rest →
      j.data_size ≤ (record_device.run MAX_CACHED_DATA_SIZE self tr).m_cached_data_size ∧
      (record_device.run MAX_CACHED_DATA_SIZE self tr).run_next_job.m_write_thread = rest ∧
      (record_device.run MAX_CACHED_DATA_SIZE self tr).run_next_job.m_cached_data_size =
        (record_device.run MAX_CACHED_DATA_SIZE self tr).m_cached_data_size -
          j.f.get_data_size) := by
  obtain ⟨hq, -, hrec, -, -, -, hzero⟩ := ctor_constructed_members d w self h
  have hstart : self.budget_state MAX_CACHED_DATA_SIZE := by
    refine ⟨hrec, by omega, ?_, ?_, fun _ => hq⟩
    · rw [hzero]; unfold record_device.pending_bytes; rw [hq]; rfl
    · intro j hj; rw [hq] at hj; simp at hj
  have hend := budget_state_run MAX_CACHED_DATA_SIZE tr self hstart hfit
  exact ⟨hend.2.1, hend.2.2.1, (budget_state_job MAX_CACHED_DATA_SIZE _ hend).2⟩

/-! ## The budget under overlapping threads (lines 91, 98 and 123-124) -/

theorem write_data_test_drop (MAX_CACHED_DATA_SIZE : Nat) (self : record_device) (i : Nat)
    (f : frame_interface)
    (h : (self.m_cached_data_size + f.get_data_size % UINT64_RANGE) % UINT64_RANGE >
      MAX_CACHED_DATA_SIZE) :
    record_device.write_data_test MAX_CACHED_DATA_SIZE self i f =
      ({ self with log := self.log ++ ["frame drop occurred"] }, none) := by
  unfold record_device.write_data_test
  exact if_pos h

theorem write_data_test_accept (MAX_CACHED_DATA_SIZE : Nat) (self : record_device) (i : Nat)
    (f : frame_interface)
    (h : ¬ (self.m_cached_data_size + f.get_data_size % UINT64_RANGE) % UINT64_RANGE >
      MAX_CACHED_DATA_SIZE) :
    record_device.write_data_test MAX_CACHED_DATA_SIZE self i f =
      (self, some { sensor_index := i, f := f, data_size := f.get_data_size % UINT64_RANGE,
                    cached_data_size :=
                      (self.m_cached_data_size + f.get_data_size % UINT64_RANGE) %
                        UINT64_RANGE }) := by
  unfold record_device.write_data_test
  exact if_neg h

/-- A call of `write_data` is its test (lines 90-96) followed, when the frame is
admitted, by its store (lines 98-101). -/
theorem write_data_split (MAX_CACHED_DATA_SIZE : Nat) (self : record_device) (i : Nat)
    (f : frame_interface) (now : Int) :
    record_device.write_data MAX_CACHED_DATA_SIZE self i f now =
      match record_device.write_data_test MAX_CACHED_DATA_SIZE self i f with
      | (shared, none) => shared
      | (shared, some locals) => shared.write_data_store locals now := by
  by_cases h : (self.m_cached_data_size + f.get_data_size % UINT64_RANGE) % UINT64_RANGE >
      MAX_CACHED_DATA_SIZE
  · rw [write_data_test_drop _ _ _ _ h, write_data_drop _ _ _ _ _ h]
  · rw [write_data_test_accept _ _ _ _ h, write_data_accept _ _ _ _ _ h]
    rfl

/-- A hook call that no other thread step interrupts is the capture hook. -/
theorem threads_hook_without_overlap (MAX_CACHED_DATA_SIZE : Nat) (self : record_device)
    (thread i : Nat) (f : frame_interface) (once_now now : Int) :
    threads.run MAX_CACHED_DATA_SIZE (threads.start self)
        [thread_step.enter thread i f once_now, thread_step.store thread now] =
      threads.start
        (record_device.capture_hook MAX_CACHED_DATA_SIZE self i f once_now now) := by
  unfold record_device.capture_hook
  by_cases h : ((self.call_once once_now).m_cached_data_size + f.get_data_size % UINT64_RANGE) %
      UINT64_RANGE > MAX_CACHED_DATA_SIZE
  · have e1 : threads.perform MAX_CACHED_DATA_SIZE (threads.start self)
        (thread_step.enter thread i f once_now) =
        { shared := { self.call_once once_now with
            log := (self.call_once once_now).log ++ ["frame drop occurred"] }
          in_write_data := [] } := by
      simp only [threads.perform, threads.start, List.lookup, Option.isSome_none,
        Bool.false_eq_true, if_false, write_data_test_drop _ _ _ _ h]
    show threads.perform MAX_CACHED_DATA_SIZE
      (threads.perform MAX_CACHED_DATA_SIZE (threads.start self)
        (thread_step.enter thread i f once_now)) (thread_step.store thread now) = _
    rw [e1, write_data_drop _ _ _ _ _ h]
    rfl
  · have e1 : threads.perform MAX_CACHED_DATA_SIZE (threads.start self)
        (thread_step.enter thread i f once_now) =
        { shared := self.call_once once_now
          in_write_data :=
            [(thread, { sensor_index := i, f := f, data_size := f.get_data_size % UINT64_RANGE,
                        cached_data_size :=
                          ((self.call_once once_now).m_cached_data_size +
                            f.get_data_size % UINT64_RANGE) % UINT64_RANGE })] } := by
      simp only [threads.perform, threads.start, List.lookup, Option.isSome_none,
        Bool.false_eq_true, if_false, write_data_test_accept _ _ _ _ h, List.nil_append]
    show threads.perform MAX_CACHED_DATA_SIZE
      (threads.perform MAX_CACHED_DATA_SIZE (threads.start self)
        (thread_step.enter thread i f once_now)) (thread_step.store thread now) = _
    rw [e1, write_data_accept _ _ _ _ _ h]
    simp [threads.perform, threads.start, List.lookup, record_device.write_data_store,
      record_device.get_capture_time]

/-- C3 on the code: `write_data` reads the budget at line 91 and writes it at
line 98 without taking `m_mutex`, which only the job takes (line 123), so an
update is lost when two steps overlap.  Bound 1000, freshly constructed
recorder, frames of 10 and 20 bytes.  Two producer threads that both read
before either stores leave the budget at 20 with 30 bytes pending, and once both
jobs have run the budget has wrapped below zero to `2 ^ 64 - 10`, above the
bound, with nothing pending.  One producer thread whose second call reads
before the first job runs and stores after it leaves the budget at 30 with 20
bytes pending, and at 10 with nothing pending once that job has run. -/
theorem unlocked_budget_update_loses_bytes :
    (record_device.ctor (some scenario_device) (some scenario_writer)).outcome =
      ctor_outcome.constructed scenario_state ∧
    (threads.run 1000 (threads.start scenario_state)
      schedule_two_producers).shared.m_cached_data_size = 20 ∧
    (threads.run 1000 (threads.start scenario_state)
      schedule_two_producers).shared.pending_bytes = 30 ∧
    (threads.run 1000 (threads.start scenario_state)
      (schedule_two_producers ++ [thread_step.job, thread_step.job])).shared.m_write_thread = [] ∧
    (threads.run 1000 (threads.start scenario_state)
      (schedule_two_producers ++ [thread_step.job, thread_step.job])).in_write_data = [] ∧
    (threads.run 1000 (threads.start scenario_state)
      (schedule_two_producers ++ [thread_step.job, thread_step.job])).shared.m_cached_data_size =
        UINT64_RANGE - 10 ∧
    ¬ (threads.run 1000 (threads.start scenario_state)
      (schedule_two_producers ++ [thread_step.job, thread_step.job])).shared.m_cached_data_size ≤
        1000 ∧
    (threads.run 1000 (threads.start scenario_state)
      schedule_producer_and_dispatcher).shared.m_cached_data_size = 30 ∧
    (threads.run 1000 (threads.start scenario_state)
      schedule_producer_and_dispatcher).shared.pending_bytes = 20 ∧
    (threads.run 1000 (threads.start scenario_state)
      (schedule_producer_and_dispatcher ++ [thread_step.job])).shared.m_write_thread = [] ∧
    (threads.run 1000 (threads.start scenario_state)
      (schedule_producer_and_dispatcher ++ [thread_step.job])).shared.m_cached_data_size = 10 := by
  refine ⟨by decide, by decide, by decide, by decide, by decide, by decide, by decide,
    by decide, by decide, by decide, by decide⟩

/-! ## Admission (lines 88-101) -/

/-- C4, as stated, fails where the 64-bit sum of line 91 wraps.  Bound 1000,
budget 10 (one 10-byte frame admitted), frame reporting `2 ^ 64 - 5` bytes:
budget plus frame size exceeds the bound, yet the wrapped sum is 5 and the job
is enqueued. -/
theorem admission_rule_wraps :
    ¬ record_device.admission_rule 1000
        (record_device.capture_hook 1000 scenario_state 0 (scenario_frame 0 10) 100 101)
        0 scenario_oversized_frame 102 := by
  intro hrule
  have hiff := hrule.1
  have hqueue :
      (record_device.write_data 1000
        (record_device.capture_hook 1000 scenario_state 0 (scenario_frame 0 10) 100 101)
        0 scenario_oversized_frame 102).m_write_thread ≠
      (record_device.capture_hook 1000 scenario_state 0 (scenario_frame 0 10) 100 101).m_write_thread := by
    decide
  have hsum := hiff.mp hqueue
  have hbudget :
      (record_device.capture_hook 1000 scenario_state 0 (scenario_frame 0 10) 100 101).m_cached_data_size
        = 10 := by
    decide
  have hsize : scenario_oversized_frame.get_data_size = UINT64_RANGE - 5 := rfl
  rw [hbudget, hsize] at hsum
  simp [UINT64_RANGE] at hsum

/-- C4, amended. For every recorder state and frame whose budget plus frame size
fits in 64 bits, `write_data` enqueues a job exactly when that sum is within
the bound; beyond the bound it leaves the budget, the queue and the writer
unchanged (it only logs the drop), and within the bound it appends one job
carrying the sensor index, the frame and its size, sets the budget to the sum
and leaves the writer unchanged.  The capture hook is `write_data` once its
one-shot guard has fired, and on a state whose budget is 0 it changes budget,
queue and writer in the same way on its first call. -/
theorem write_data_admission (MAX_CACHED_DATA_SIZE : Nat) (self : record_device) (i : Nat)
    (f : frame_interface) (once_now now : Int)
    (hnw : self.m_cached_data_size + f.get_data_size < UINT64_RANGE) :
    record_device.admission_rule MAX_CACHED_DATA_SIZE self i f now ∧
    (MAX_CACHED_DATA_SIZE < self.m_cached_data_size + f.get_data_size →
      record_device.write_data MAX_CACHED_DATA_SIZE self i f now =
        { self with log := self.log ++ ["frame drop occurred"] }) ∧
    (self.m_first_call_flag = true →
      record_device.capture_hook MAX_CACHED_DATA_SIZE self i f once_now now =
        record_device.write_data MAX_CACHED_DATA_SIZE self i f now) ∧
    (self.m_first_call_flag = false → self.m_cached_data_size = 0 →
      (record_device.capture_hook MAX_CACHED_DATA_SIZE self i f once_now now).m_writer =
        self.m_writer ∧
      (MAX_CACHED_DATA_SIZE < f.get_data_size →
        (record_device.capture_hook MAX_CACHED_DATA_SIZE self i f once_now now).m_cached_data_size
          = 0 ∧
        (record_device.capture_hook MAX_CACHED_DATA_SIZE self i f once_now now).m_write_thread =
          self.m_write_thread) ∧
      (f.get_data_size ≤ MAX_CACHED_DATA_SIZE →
        (record_device.capture_hook MAX_CACHED_DATA_SIZE self i f once_now now).m_cached_data_size
          = f.get_data_size ∧
        (record_device.capture_hook MAX_CACHED_DATA_SIZE self i f once_now now).m_write_thread =
          self.m_write_thread ++
            [{ sensor_index := i
               capture_time := (now - once_now) - self.m_record_pause_time
               f := f
               data_size := f.get_data_size }])) := by
  have hsize : f.get_data_size % UINT64_RANGE = f.get_data_size := Nat.mod_eq_of_lt (by omega)
  have hsum : (self.m_cached_data_size + f.get_data_size % UINT64_RANGE) % UINT64_RANGE =
      self.m_cached_data_size + f.get_data_size := by
    rw [hsize]; exact Nat.mod_eq_of_lt hnw
  have hdropped : MAX_CACHED_DATA_SIZE < self.m_cached_data_size + f.get_data_size →
      record_device.write_data MAX_CACHED_DATA_SIZE self i f now =
        { self with log := self.log ++ ["frame drop occurred"] } := by
    intro hgt
    exact write_data_drop _ _ _ _ _ (by rw [hsum]; exact hgt)
  have haccepted : self.m_cached_data_size + f.get_data_size ≤ MAX_CACHED_DATA_SIZE →
      record_device.write_data MAX_CACHED_DATA_SIZE self i f now =
        { self with
          m_cached_data_size := self.m_cached_data_size + f.get_data_size
          m_write_thread := self.m_write_thread ++
            [{ sensor_index := i
               capture_time := (now - self.m_capture_time_base) - self.m_record_pause_time
               f := f
               data_size := f.get_data_size }] } := by
    intro hle
    rw [write_data_accept _ _ _ _ _ (by rw [hsum]; omega), hsum, hsize]
  refine ⟨⟨?_, ?_, ?_⟩, hdropped, ?_, ?_⟩
  · constructor
    · intro hne
      by_contra hgt
      rw [hdropped (by omega)] at hne
      exact hne rfl
    · intro hle
      rw [haccepted hle]
      show self.m_write_thread ++ _ ≠ self.m_write_thread
      simp
  · intro hgt
    rw [hdropped hgt]
    exact ⟨rfl, rfl, rfl⟩
  · intro hle
    rw [haccepted hle]
    exact ⟨rfl, rfl, rfl⟩
  · intro hflag
    unfold record_device.capture_hook
    rw [call_once_of_fired self once_now hflag]
  · intro hflag hzero
    unfold record_device.capture_hook
    rw [call_once_of_first self once_now hflag]
    refine ⟨(write_data_fixed _ _ _ _ _).1, ?_, ?_⟩
    · intro hgt
      rw [write_data_drop]
      · exact ⟨rfl, rfl⟩
      · show (0 + f.get_data_size % UINT64_RANGE) % UINT64_RANGE > _
        rw [Nat.zero_add, Nat.mod_mod, hsize]
        exact hgt
    · intro hle
      rw [write_data_accept]
      · refine ⟨?_, ?_⟩
        · show (0 + f.get_data_size % UINT64_RANGE) % UINT64_RANGE = _
          rw [Nat.zero_add, Nat.mod_mod, hsize]
        · show self.m_write_thread ++ _ = _
          rw [hsize]
      · show ¬ (0 + f.get_data_size % UINT64_RANGE) % UINT64_RANGE > _
        rw [Nat.zero_add, Nat.mod_mod, hsize]
        omega

/-- Witness of the amended C4 at the scenario of the claim: bound 15 and one
20-byte frame on sensor 0 of a freshly constructed recorder. -/
theorem write_data_admission_witness :
    scenario_state.m_cached_data_size + (scenario_frame 0 20).get_data_size < UINT64_RANGE ∧
    record_device.capture_hook 15 scenario_state 0 (scenario_frame 0 20) 100 101 =
      { scenario_state with
        m_first_call_flag := true
        m_capture_time_base := 100
        log := ["frame drop occurred"] } ∧
    (record_device.run 15 scenario_state
      [step.capture 0 (scenario_frame 0 20) 100 101, step.job]).m_writer.calls =
        [writer_call.reset] ∧
    (record_device.admission_rule 15 scenario_state 0 (scenario_frame 0 20) 101 ∧
     (15 < scenario_state.m_cached_data_size + (scenario_frame 0 20).get_data_size →
      record_device.write_data 15 scenario_state 0 (scenario_frame 0 20) 101 =
        { scenario_state with log := scenario_state.log ++ ["frame drop occurred"] }) ∧
     (scenario_state.m_first_call_flag = true →
      record_device.capture_hook 15 scenario_state 0 (scenario_frame 0 20) 100 101 =
        record_device.write_data 15 scenario_state 0 (scenario_frame 0 20) 101) ∧
     (scenario_state.m_first_call_flag = false → scenario_state.m_cached_data_size = 0 →
      (record_device.capture_hook 15 scenario_state 0 (scenario_frame 0 20) 100 101).m_writer =
        scenario_state.m_writer ∧
      (15 < (scenario_frame 0 20).get_data_size →
        (record_device.capture_hook 15 scenario_state 0 (scenario_frame 0 20) 100
          101).m_cached_data_size = 0 ∧
        (record_device.capture_hook 15 scenario_state 0 (scenario_frame 0 20) 100
          101).m_write_thread = scenario_state.m_write_thread) ∧
      ((scenario_frame 0 20).get_data_size ≤ 15 →
        (record_device.capture_hook 15 scenario_state 0 (scenario_frame 0 20) 100
          101).m_cached_data_size = (scenario_frame 0 20).get_data_size ∧
        (record_device.capture_hook 15 scenario_state 0 (scenario_frame 0 20) 100
          101).m_write_thread =
          scenario_state.m_write_thread ++
            [{ sensor_index := 0
               capture_time := (101 - 100) - scenario_state.m_record_pause_time
               f := scenario_frame 0 20
               data_size := (scenario_frame 0 20).get_data_size }]))) :=
  ⟨by decide, by decide, by decide,
    write_data_admission 15 scenario_state 0 (scenario_frame 0 20) 100 101 (by decide)⟩

/-! ## Budget release (lines 103-106 and 123-124) -/

theorem run_base_fixed (MAX_CACHED_DATA_SIZE : Nat) (tr : List step) (self : record_device)
    (hflag : self.m_first_call_flag = true) :
    (record_device.run MAX_CACHED_DATA_SIZE self tr).m_first_call_flag = true ∧
    (record_device.run MAX_CACHED_DATA_SIZE self tr).m_capture_time_base =
      self.m_capture_time_base := by
  induction tr generalizing self with
  | nil => exact ⟨hflag, rfl⟩
  | cons a rest ih =>
    cases a with
    | capture i f once_now now =>
      have hstep : record_device.capture_hook MAX_CACHED_DATA_SIZE self i f once_now now =
          record_device.write_data MAX_CACHED_DATA_SIZE self i f now := by
        unfold record_device.capture_hook
        rw [call_once_of_fired self once_now hflag]
      obtain ⟨-, -, -, h4, h5, -⟩ := write_data_fixed MAX_CACHED_DATA_SIZE self i f now
      have hnext := ih (record_device.capture_hook MAX_CACHED_DATA_SIZE self i f once_now now)
        (by rw [hstep, h4]; exact hflag)
      refine ⟨hnext.1, ?_⟩
      show (record_device.run MAX_CACHED_DATA_SIZE
        (record_device.capture_hook MAX_CACHED_DATA_SIZE self i f once_now now)
        rest).m_capture_time_base = _
      rw [hnext.2, hstep, h5]
    | job =>
      obtain ⟨h1, h2, -⟩ := run_next_job_fixed self
      have hnext := ih self.run_next_job (by rw [h1]; exact hflag)
      refine ⟨hnext.1, ?_⟩
      show (record_device.run MAX_CACHED_DATA_SIZE self.run_next_job rest).m_capture_time_base = _
      rw [hnext.2, h2]

/-- C10, as stated, fails: on a freshly constructed recorder with bound 15 the
hook call with a 20-byte frame at clock reading 100 enqueues nothing, yet it
fires the one-shot guard and sets the base to 100. -/
theorem dropped_first_frame_sets_base :
    ¬ record_device.drop_keeps_base 15 scenario_state 0 (scenario_frame 0 20) 100 101 := by
  unfold record_device.drop_keeps_base
  decide

/-- C10, amended. The capture-time base is established exactly once, by the
first capture-hook call across all sensors, whether its frame is admitted or
dropped: after any hook call the one-shot guard has fired; a call on a state
whose guard had not fired sets the base to its clock reading, a call on a
state whose guard had fired keeps the base, and from then on no sequence of
hook calls and job executions changes it.  The pause time is never changed,
and a job enqueued by the hook carries `now - base - accumulated_pause`, which
is the capture time of the record written from it. -/
theorem capture_time_base_set_once (MAX_CACHED_DATA_SIZE : Nat) (self : record_device)
    (i : Nat) (f : frame_interface) (once_now now : Int) :
    (record_device.capture_hook MAX_CACHED_DATA_SIZE self i f once_now now).m_first_call_flag =
      true ∧
    (self.m_first_call_flag = false →
      (record_device.capture_hook MAX_CACHED_DATA_SIZE self i f once_now now).m_capture_time_base =
        once_now) ∧
    (self.m_first_call_flag = true →
      (record_device.capture_hook MAX_CACHED_DATA_SIZE self i f once_now now).m_capture_time_base =
        self.m_capture_time_base) ∧
    (∀ tr : List step,
      (record_device.run MAX_CACHED_DATA_SIZE
        (record_device.capture_hook MAX_CACHED_DATA_SIZE self i f once_now now)
        tr).m_capture_time_base =
      (record_device.capture_hook MAX_CACHED_DATA_SIZE self i f once_now now).m_capture_time_base ∧
      (record_device.run MAX_CACHED_DATA_SIZE
        (record_device.capture_hook MAX_CACHED_DATA_SIZE self i f once_now now)
        tr).m_first_call_flag = true) ∧
    (record_device.capture_hook MAX_CACHED_DATA_SIZE self i f once_now now).m_record_pause_time =
      self.m_record_pause_time ∧
    ((record_device.capture_hook MAX_CACHED_DATA_SIZE self i f once_now now).m_write_thread =
        self.m_write_thread ∨
      (record_device.capture_hook MAX_CACHED_DATA_SIZE self i f once_now now).m_write_thread =
        self.m_write_thread ++
          [{ sensor_index := i
             capture_time :=
               (now - (record_device.capture_hook MAX_CACHED_DATA_SIZE self i f once_now
                  now).m_capture_time_base) -
                 (record_device.capture_hook MAX_CACHED_DATA_SIZE self i f once_now
                   now).m_record_pause_time
             f := f
             data_size := f.get_data_size % UINT64_RANGE }]) ∧
    (∀ (st : record_device) (j : job) data,
      writer_call.write data ∈ (st.job_body j).m_writer.calls →
      writer_call.write data ∈ st.m_writer.calls ∨ data.capture_time = j.capture_time) := by
  have hflag : (record_device.capture_hook MAX_CACHED_DATA_SIZE self i f once_now
      now).m_first_call_flag = true := by
    unfold record_device.capture_hook
    rw [(write_data_fixed _ _ _ _ _).2.2.2.1]
    exact call_once_flag self once_now
  have hbase : (record_device.capture_hook MAX_CACHED_DATA_SIZE self i f once_now
      now).m_capture_time_base = (self.call_once once_now).m_capture_time_base := by
    unfold record_device.capture_hook
    exact (write_data_fixed _ _ _ _ _).2.2.2.2.1
  have hpause := (capture_hook_fixed MAX_CACHED_DATA_SIZE self i f once_now now).2.2.2
  refine ⟨hflag, ?_, ?_, ?_, hpause, ?_, ?_⟩
  · intro hfirst
    rw [hbase, call_once_of_first self once_now hfirst]
  · intro hfired
    rw [hbase, call_once_of_fired self once_now hfired]
  · intro tr
    have hrun := run_base_fixed MAX_CACHED_DATA_SIZE tr _ hflag
    exact ⟨hrun.2, hrun.1⟩
  · rw [hbase, hpause]
    unfold record_device.capture_hook
    by_cases hdrop : ((self.call_once once_now).m_cached_data_size +
        f.get_data_size % UINT64_RANGE) % UINT64_RANGE > MAX_CACHED_DATA_SIZE
    · left
      rw [write_data_drop _ _ _ _ _ hdrop]
      exact call_once_queue self once_now
    · right
      rw [write_data_accept _ _ _ _ _ hdrop]
      show (self.call_once once_now).m_write_thread ++ _ = _
      rw [call_once_queue, (call_once_recording self once_now).2.2]
  · intro st j data hdata
    rcases job_body_record_tag st j data hdata with h1 | h1
    · exact Or.inl h1
    · right; rw [h1]

end rsimpl2
